import Mathlib

/-!
Verification development for the CodeGateway static pattern-detection engine.

The definitions below are a shallow embedding of the detection core:

* shared vocabulary (`Severity`, `PatternType`, `DetectedPattern`) from
  `packages/shared/src/types/index.ts`;
* utility functions (`detectLanguage`, `matchesGlob`, `compareSeverity`,
  `meetsSeverityThreshold`) from `packages/shared/src/utils/index.ts`;
* built-in denylists from `packages/shared/src/constants/index.ts`;
* the four detectors (`NamingPatternDetector` with user-extensible sets,
  `ErrorHandlingDetector`, `SecurityDetector`, `CodeQualityDetector`);
* the orchestrator `Analyzer.analyzeFile` from
  `packages/core/src/analyzer.ts`.

Source files are parsed by the external `ts-morph` library; the embedding
therefore takes an already-parsed view of the input: a `SrcFile` carries the
list of raw text lines (used by the line-oriented scans) together with the
abstract syntax tree (used by the AST walks).  The wall clock (`Date.now()`)
is modelled by an explicit `now : Nat` argument; it flows only into the `id`
and `detectedAt` fields of generated patterns, exactly as in the source.
-/

namespace CodeGateway

/-! ## Shared vocabulary (packages/shared/src/types/index.ts) -/

inductive Severity
  | info
  | warning
  | critical
deriving DecidableEq, Repr

inductive PatternType
  | generic_variable_name
  | inconsistent_naming
  | empty_catch_block
  | swallowed_error
  | missing_error_boundary
  | generic_error_message
  | try_without_catch
  | hardcoded_secret
  | sql_concatenation
  | unsafe_eval
  | insecure_random
  | missing_input_validation
  | copy_paste_pattern
  | magic_number
  | todo_without_context
  | commented_out_code
  | overly_complex_function
  | placeholder_implementation
  | incomplete_edge_case
  | mock_data_in_production
  | framework_version_mismatch
  | unnecessary_abstraction
  | context_mismatch
deriving DecidableEq, Repr

inductive SupportedLanguage
  | typescript
  | javascript
  | python
  | rust
  | go
  | java
  | csharp
deriving DecidableEq, Repr

/-- One detected issue.  `confidence` is the source's float in [0,1] stored in
hundredths (0.95 becomes 95); it is carried data, never compared.
`detectedAt` is the clock value at creation time. -/
structure DetectedPattern where
  id : String
  type : PatternType
  severity : Severity
  file : String
  startLine : Nat
  endLine : Nat
  startColumn : Option Nat
  endColumn : Option Nat
  description : String
  explanation : String
  codeSnippet : String
  suggestion : Option String
  autoFixAvailable : Bool
  confidence : Nat
  detectorId : String
  detectedAt : Nat
deriving DecidableEq, Repr

/-- Detector-specific settings passed to analyze() methods. -/
structure DetectorSettings where
  genericVariableNames : List String
  loopVariableNames : List String
  coordinateVariableNames : List String
  genericErrorMessages : List String
  secretPatterns : List String

/-! ## Severity helpers (packages/shared/src/utils/index.ts) -/

def severityOrder : Severity → Nat
  | .info => 0
  | .warning => 1
  | .critical => 2

/-- `compareSeverity`: `order[b] - order[a]` (sorts critical first). -/
def compareSeverity (a b : Severity) : Int :=
  (severityOrder b : Int) - (severityOrder a : Int)

/-- `meetsSeverityThreshold`: `order[severity] >= order[minSeverity]`. -/
def meetsSeverityThreshold (severity minSeverity : Severity) : Bool :=
  severityOrder minSeverity ≤ severityOrder severity

/-! ## String helpers

The source relies on JavaScript string methods and small regular expressions.
These are modelled by executable functions over `List Char`.  JS
`toLowerCase` on the ASCII identifiers/phrases involved agrees with
`Char.toLower`. -/

def asciiLower (s : String) : String :=
  String.mk (s.data.map Char.toLower)

/-- JS `\s` approximated by whitespace characters. -/
def isWsChar (c : Char) : Bool := c.isWhitespace

/-- JS `\w` (word character) for word-boundary checks. -/
def isWordChar (c : Char) : Bool :=
  c.isAlphanum || c = '_'

/-- JS `String.prototype.includes` (substring containment). -/
def strContains (s pat : String) : Bool :=
  (s.data.tails).any (fun t => pat.data.isPrefixOf t)

/-- Replace the first occurrence of `pat` (JS `String.prototype.replace` with
a string argument replaces only the first occurrence). -/
def replaceFirstAux (pat repl : List Char) : List Char → List Char
  | [] => []
  | c :: cs =>
    if pat.isPrefixOf (c :: cs) then repl ++ (c :: cs).drop pat.length
    else c :: replaceFirstAux pat repl cs

def replaceFirst (s pat repl : String) : String :=
  String.mk (replaceFirstAux pat.data repl.data s.data)

/-! Several compiler-builtin `String` methods are compiled by well-founded
recursion; the embedding uses these structural `List Char` equivalents so
that concrete runs reduce. -/

def strTake (s : String) (n : Nat) : String :=
  String.mk (s.data.take n)

def strStartsWith (s pat : String) : Bool :=
  pat.data.isPrefixOf s.data

def strEndsWith (s pat : String) : Bool :=
  s.data.drop (s.data.length - pat.data.length) == pat.data

def splitCharAux (c : Char) : List Char → List (List Char)
  | [] => [[]]
  | d :: ds =>
    let rest := splitCharAux c ds
    if d = c then [] :: rest
    else
      match rest with
      | r :: rs => (d :: r) :: rs
      | [] => [[d]]

/-- `s.split(c)` for a one-character separator. -/
def splitOnChar (c : Char) (s : String) : List String :=
  (splitCharAux c s.data).map String.mk

def strTrim (s : String) : String :=
  String.mk (((s.data.dropWhile isWsChar).reverse.dropWhile
    isWsChar).reverse)

/-- Does `pat` occur in `s` delimited by word boundaries (`\bpat\b`),
case-insensitively?  Used for the SQL-keyword and security-keyword tests. -/
def containsWordCI (s pat : String) : Bool :=
  let p := pat.data.map Char.toLower
  let rec go (before : Option Char) : List Char → Bool
    | [] => false
    | c :: cs =>
      (p.isPrefixOf ((c :: cs).map Char.toLower)
        && (match before with
            | none => true
            | some b => !isWordChar b)
        && (match (c :: cs).drop p.length with
            | [] => true
            | d :: _ => !isWordChar d))
      || go (some c) cs
  go none s.data

/-! ## Language detection and glob matching
(packages/shared/src/utils/index.ts) -/

/-- `EXTENSION_TO_LANGUAGE` from packages/shared/src/constants/index.ts. -/
def EXTENSION_TO_LANGUAGE : String → Option SupportedLanguage
  | ".ts" => some .typescript
  | ".tsx" => some .typescript
  | ".js" => some .javascript
  | ".jsx" => some .javascript
  | ".mjs" => some .javascript
  | ".cjs" => some .javascript
  | ".py" => some .python
  | ".rs" => some .rust
  | ".go" => some .go
  | ".java" => some .java
  | ".cs" => some .csharp
  | _ => none

/-- `detectLanguage`: `'.' + filePath.split('.').pop()` looked up in the
extension map (`?? null` modelled by `Option`). -/
def detectLanguage (filePath : String) : Option SupportedLanguage :=
  let ext := "." ++ ((splitOnChar '.' filePath).getLastD "")
  EXTENSION_TO_LANGUAGE ext

/-- Glob tokens: `**` matches any run, `*` matches any run without `/`, and
every other character matches itself (globToRegex escapes regex
metacharacters, so they are literals). -/
inductive GlobTok
  | dstar
  | star
  | lit (c : Char)

def globTokens : List Char → List GlobTok
  | [] => []
  | '*' :: '*' :: cs => .dstar :: globTokens cs
  | '*' :: cs => .star :: globTokens cs
  | c :: cs => .lit c :: globTokens cs

/-- Backtracking glob matcher.  Every recursive call shrinks
`ps.length + ds.length`, so `fuel` larger than that sum never runs out; it
makes the recursion structural. -/
def globMatchAux : Nat → List GlobTok → List Char → Bool
  | 0, _, _ => false
  | _ + 1, [], [] => true
  | _ + 1, [], _ :: _ => false
  | _ + 1, .lit _ :: _, [] => false
  | fuel + 1, .lit c :: ps, d :: ds => c = d && globMatchAux fuel ps ds
  | fuel + 1, .star :: ps, [] => globMatchAux fuel ps []
  | fuel + 1, .star :: ps, d :: ds =>
    globMatchAux fuel ps (d :: ds)
      || (d ≠ '/' && globMatchAux fuel (.star :: ps) ds)
  | fuel + 1, .dstar :: ps, [] => globMatchAux fuel ps []
  | fuel + 1, .dstar :: ps, d :: ds =>
    globMatchAux fuel ps (d :: ds) || globMatchAux fuel (.dstar :: ps) ds

/-- Anchored match of one glob pattern against a path (`globToRegex`). -/
def globMatch (pat : String) (path : String) : Bool :=
  globMatchAux (pat.length + path.length + 1) (globTokens pat.data) path.data

/-- `matchesGlob`: true when any pattern matches. -/
def matchesGlob (filePath : String) (patterns : List String) : Bool :=
  patterns.any (fun pat => globMatch pat filePath)

/-- The `excludeFiles` wildcard: `pattern.replaceAll('.','\\.')
.replaceAll('*','.*')`, anchored — `*` matches any run (including `/`),
everything else is literal. -/
inductive WildTok
  | star
  | lit (c : Char)

def wildTokens : List Char → List WildTok
  | [] => []
  | '*' :: cs => .star :: wildTokens cs
  | c :: cs => .lit c :: wildTokens cs

def wildMatchAux : Nat → List WildTok → List Char → Bool
  | 0, _, _ => false
  | _ + 1, [], [] => true
  | _ + 1, [], _ :: _ => false
  | _ + 1, .lit _ :: _, [] => false
  | fuel + 1, .lit c :: ps, d :: ds => c = d && wildMatchAux fuel ps ds
  | fuel + 1, .star :: ps, [] => wildMatchAux fuel ps []
  | fuel + 1, .star :: ps, d :: ds =>
    wildMatchAux fuel ps (d :: ds) || wildMatchAux fuel (.star :: ps) ds

def simpleWildcardMatch (pat : String) (fileName : String) : Bool :=
  wildMatchAux (pat.length + fileName.length + 1) (wildTokens pat.data)
    fileName.data

/-! ## Abstract syntax tree

The detectors walk `ts-morph` syntax nodes.  `Ts` models the node kinds the
detection code inspects; every node carries its 1-based start/end line
(`getStartLineNumber` / `getEndLineNumber`).  Template-literal spans are
nodes of kind `templateSpan` so that `getTemplateSpans` is a child query. -/

structure Pos where
  startLine : Nat
  endLine : Nat
deriving DecidableEq, Repr

inductive DeclKind
  | constKw
  | letKw
  | varKw
deriving DecidableEq, Repr

inductive BinOp
  | plus
  | ampAmp
  | barBar
  | other (text : String)
deriving DecidableEq, Repr

inductive Ts
  | ident (pos : Pos) (name : String)
  | numLit (pos : Pos) (value : Int)
  | strLit (pos : Pos) (text : String)
  | templateExpr (pos : Pos) (headText : String) (spans : List Ts)
  | templateSpan (pos : Pos) (expr : Ts) (literal : String)
  | binaryExpr (pos : Pos) (op : BinOp) (lhs rhs : Ts)
  | propAccess (pos : Pos) (obj : Ts) (name : String)
  | elemAccess (pos : Pos) (obj : Ts) (index : Ts)
  | callExpr (pos : Pos) (callee : Ts) (args : List Ts)
  | newExpr (pos : Pos) (callee : Ts) (args : List Ts)
  | awaitExpr (pos : Pos) (expr : Ts)
  | postUnary (pos : Pos) (expr : Ts) (opText : String)
  | objLit (pos : Pos) (props : List Ts)
  | propAssign (pos : Pos) (key : String) (value : Ts)
  | arrayLit (pos : Pos) (elems : List Ts)
  | arrowFunction (pos : Pos) (isAsync : Bool) (params : List Ts) (body : Ts)
  | funcDecl (pos : Pos) (isAsync : Bool) (name : Option String)
      (params : List Ts) (body : Option Ts)
  | methodDecl (pos : Pos) (isAsync : Bool) (name : String)
      (params : List Ts) (body : Option Ts)
  | param (pos : Pos) (name : String)
  | varDecl (pos : Pos) (name : String) (initializer : Option Ts)
  | varStmt (pos : Pos) (declKind : DeclKind) (decls : List Ts)
  | exprStmt (pos : Pos) (expr : Ts)
  | retStmt (pos : Pos) (expr : Option Ts)
  | throwStmt (pos : Pos) (expr : Ts)
  | block (pos : Pos) (stmts : List Ts)
  | commentStmt (pos : Pos) (text : String)
  | ifStmt (pos : Pos) (cond : Ts) (thenBranch : Ts) (elseBranch : Option Ts)
  | condExpr (pos : Pos) (cond thenE elseE : Ts)
  | forStmt (pos : Pos) (initE condE incrE : Option Ts) (body : Ts)
  | forInStmt (pos : Pos) (initE : Ts) (expr : Ts) (body : Ts)
  | forOfStmt (pos : Pos) (initE : Ts) (expr : Ts) (body : Ts)
  | whileStmt (pos : Pos) (cond : Ts) (body : Ts)
  | doStmt (pos : Pos) (body : Ts) (cond : Ts)
  | switchStmt (pos : Pos) (expr : Ts) (clauses : List Ts)
  | caseClause (pos : Pos) (expr : Ts) (stmts : List Ts)
  | defaultClause (pos : Pos) (stmts : List Ts)
  | tryStmt (pos : Pos) (tryBlock : Ts) (catchC : Option Ts)
      (finallyBlock : Option Ts)
  | catchClause (pos : Pos) (binding : Option Ts) (body : Ts)
  | arrayBindingPattern (pos : Pos) (elems : List Ts)
deriving Repr

/-- `SyntaxKind` tags for the kind-based queries. -/
inductive Kind
  | ident
  | numLit
  | strLit
  | templateExpr
  | templateSpan
  | binaryExpr
  | propAccess
  | elemAccess
  | callExpr
  | newExpr
  | awaitExpr
  | postUnary
  | objLit
  | propAssign
  | arrayLit
  | arrowFunction
  | funcDecl
  | methodDecl
  | param
  | varDecl
  | varStmt
  | exprStmt
  | retStmt
  | throwStmt
  | block
  | commentStmt
  | ifStmt
  | condExpr
  | forStmt
  | forInStmt
  | forOfStmt
  | whileStmt
  | doStmt
  | switchStmt
  | caseClause
  | defaultClause
  | tryStmt
  | catchClause
  | arrayBindingPattern
deriving DecidableEq, Repr

def Ts.kind : Ts → Kind
  | .ident .. => .ident
  | .numLit .. => .numLit
  | .strLit .. => .strLit
  | .templateExpr .. => .templateExpr
  | .templateSpan .. => .templateSpan
  | .binaryExpr .. => .binaryExpr
  | .propAccess .. => .propAccess
  | .elemAccess .. => .elemAccess
  | .callExpr .. => .callExpr
  | .newExpr .. => .newExpr
  | .awaitExpr .. => .awaitExpr
  | .postUnary .. => .postUnary
  | .objLit .. => .objLit
  | .propAssign .. => .propAssign
  | .arrayLit .. => .arrayLit
  | .arrowFunction .. => .arrowFunction
  | .funcDecl .. => .funcDecl
  | .methodDecl .. => .methodDecl
  | .param .. => .param
  | .varDecl .. => .varDecl
  | .varStmt .. => .varStmt
  | .exprStmt .. => .exprStmt
  | .retStmt .. => .retStmt
  | .throwStmt .. => .throwStmt
  | .block .. => .block
  | .commentStmt .. => .commentStmt
  | .ifStmt .. => .ifStmt
  | .condExpr .. => .condExpr
  | .forStmt .. => .forStmt
  | .forInStmt .. => .forInStmt
  | .forOfStmt .. => .forOfStmt
  | .whileStmt .. => .whileStmt
  | .doStmt .. => .doStmt
  | .switchStmt .. => .switchStmt
  | .caseClause .. => .caseClause
  | .defaultClause .. => .defaultClause
  | .tryStmt .. => .tryStmt
  | .catchClause .. => .catchClause
  | .arrayBindingPattern .. => .arrayBindingPattern

def Ts.pos : Ts → Pos
  | .ident p .. => p
  | .numLit p .. => p
  | .strLit p .. => p
  | .templateExpr p .. => p
  | .templateSpan p .. => p
  | .binaryExpr p .. => p
  | .propAccess p .. => p
  | .elemAccess p .. => p
  | .callExpr p .. => p
  | .newExpr p .. => p
  | .awaitExpr p .. => p
  | .postUnary p .. => p
  | .objLit p .. => p
  | .propAssign p .. => p
  | .arrayLit p .. => p
  | .arrowFunction p .. => p
  | .funcDecl p .. => p
  | .methodDecl p .. => p
  | .param p .. => p
  | .varDecl p .. => p
  | .varStmt p .. => p
  | .exprStmt p .. => p
  | .retStmt p .. => p
  | .throwStmt p .. => p
  | .block p .. => p
  | .commentStmt p .. => p
  | .ifStmt p .. => p
  | .condExpr p .. => p
  | .forStmt p .. => p
  | .forInStmt p .. => p
  | .forOfStmt p .. => p
  | .whileStmt p .. => p
  | .doStmt p .. => p
  | .switchStmt p .. => p
  | .caseClause p .. => p
  | .defaultClause p .. => p
  | .tryStmt p .. => p
  | .catchClause p .. => p
  | .arrayBindingPattern p .. => p

def Ts.startLine (t : Ts) : Nat := t.pos.startLine

def Ts.endLine (t : Ts) : Nat := t.pos.endLine

/-! ### Traversal

`nodesAnc t anc` lists, in pre-order, every node of the subtree rooted at `t`
paired with its ancestor chain (nearest first); `anc` is the chain above `t`.
All `getDescendants* / getFirstAncestorByKind / forEachDescendant` queries of
the source are expressed through it. -/

mutual

def Ts.nodesAnc : Ts → List Ts → List (Ts × List Ts)
  | t@(.ident _ _), anc => [(t, anc)]
  | t@(.numLit _ _), anc => [(t, anc)]
  | t@(.strLit _ _), anc => [(t, anc)]
  | t@(.templateExpr _ _ spans), anc => (t, anc) :: Ts.nodesAncL spans (t :: anc)
  | t@(.templateSpan _ e _), anc => (t, anc) :: Ts.nodesAnc e (t :: anc)
  | t@(.binaryExpr _ _ l r), anc =>
    (t, anc) :: (Ts.nodesAnc l (t :: anc) ++ Ts.nodesAnc r (t :: anc))
  | t@(.propAccess _ o _), anc => (t, anc) :: Ts.nodesAnc o (t :: anc)
  | t@(.elemAccess _ o i), anc =>
    (t, anc) :: (Ts.nodesAnc o (t :: anc) ++ Ts.nodesAnc i (t :: anc))
  | t@(.callExpr _ f as), anc =>
    (t, anc) :: (Ts.nodesAnc f (t :: anc) ++ Ts.nodesAncL as (t :: anc))
  | t@(.newExpr _ f as), anc =>
    (t, anc) :: (Ts.nodesAnc f (t :: anc) ++ Ts.nodesAncL as (t :: anc))
  | t@(.awaitExpr _ e), anc => (t, anc) :: Ts.nodesAnc e (t :: anc)
  | t@(.postUnary _ e _), anc => (t, anc) :: Ts.nodesAnc e (t :: anc)
  | t@(.objLit _ ps), anc => (t, anc) :: Ts.nodesAncL ps (t :: anc)
  | t@(.propAssign _ _ v), anc => (t, anc) :: Ts.nodesAnc v (t :: anc)
  | t@(.arrayLit _ es), anc => (t, anc) :: Ts.nodesAncL es (t :: anc)
  | t@(.arrowFunction _ _ ps b), anc =>
    (t, anc) :: (Ts.nodesAncL ps (t :: anc) ++ Ts.nodesAnc b (t :: anc))
  | t@(.funcDecl _ _ _ ps b), anc =>
    (t, anc) :: (Ts.nodesAncL ps (t :: anc) ++ Ts.nodesAncO b (t :: anc))
  | t@(.methodDecl _ _ _ ps b), anc =>
    (t, anc) :: (Ts.nodesAncL ps (t :: anc) ++ Ts.nodesAncO b (t :: anc))
  | t@(.param _ _), anc => [(t, anc)]
  | t@(.varDecl _ _ i), anc => (t, anc) :: Ts.nodesAncO i (t :: anc)
  | t@(.varStmt _ _ ds), anc => (t, anc) :: Ts.nodesAncL ds (t :: anc)
  | t@(.exprStmt _ e), anc => (t, anc) :: Ts.nodesAnc e (t :: anc)
  | t@(.retStmt _ e), anc => (t, anc) :: Ts.nodesAncO e (t :: anc)
  | t@(.throwStmt _ e), anc => (t, anc) :: Ts.nodesAnc e (t :: anc)
  | t@(.block _ ss), anc => (t, anc) :: Ts.nodesAncL ss (t :: anc)
  | t@(.commentStmt _ _), anc => [(t, anc)]
  | t@(.ifStmt _ c th el), anc =>
    (t, anc) :: (Ts.nodesAnc c (t :: anc) ++ Ts.nodesAnc th (t :: anc)
      ++ Ts.nodesAncO el (t :: anc))
  | t@(.condExpr _ c a b), anc =>
    (t, anc) :: (Ts.nodesAnc c (t :: anc) ++ Ts.nodesAnc a (t :: anc)
      ++ Ts.nodesAnc b (t :: anc))
  | t@(.forStmt _ i c n b), anc =>
    (t, anc) :: (Ts.nodesAncO i (t :: anc) ++ Ts.nodesAncO c (t :: anc)
      ++ Ts.nodesAncO n (t :: anc) ++ Ts.nodesAnc b (t :: anc))
  | t@(.forInStmt _ i e b), anc =>
    (t, anc) :: (Ts.nodesAnc i (t :: anc) ++ Ts.nodesAnc e (t :: anc)
      ++ Ts.nodesAnc b (t :: anc))
  | t@(.forOfStmt _ i e b), anc =>
    (t, anc) :: (Ts.nodesAnc i (t :: anc) ++ Ts.nodesAnc e (t :: anc)
      ++ Ts.nodesAnc b (t :: anc))
  | t@(.whileStmt _ c b), anc =>
    (t, anc) :: (Ts.nodesAnc c (t :: anc) ++ Ts.nodesAnc b (t :: anc))
  | t@(.doStmt _ b c), anc =>
    (t, anc) :: (Ts.nodesAnc b (t :: anc) ++ Ts.nodesAnc c (t :: anc))
  | t@(.switchStmt _ e cs), anc =>
    (t, anc) :: (Ts.nodesAnc e (t :: anc) ++ Ts.nodesAncL cs (t :: anc))
  | t@(.caseClause _ e ss), anc =>
    (t, anc) :: (Ts.nodesAnc e (t :: anc) ++ Ts.nodesAncL ss (t :: anc))
  | t@(.defaultClause _ ss), anc => (t, anc) :: Ts.nodesAncL ss (t :: anc)
  | t@(.tryStmt _ tb cc fb), anc =>
    (t, anc) :: (Ts.nodesAnc tb (t :: anc) ++ Ts.nodesAncO cc (t :: anc)
      ++ Ts.nodesAncO fb (t :: anc))
  | t@(.catchClause _ b body), anc =>
    (t, anc) :: (Ts.nodesAncO b (t :: anc) ++ Ts.nodesAnc body (t :: anc))
  | t@(.arrayBindingPattern _ es), anc => (t, anc) :: Ts.nodesAncL es (t :: anc)

def Ts.nodesAncL : List Ts → List Ts → List (Ts × List Ts)
  | [], _ => []
  | x :: xs, anc => Ts.nodesAnc x anc ++ Ts.nodesAncL xs anc

def Ts.nodesAncO : Option Ts → List Ts → List (Ts × List Ts)
  | none, _ => []
  | some x, anc => Ts.nodesAnc x anc

end

/-! ### `getText`

Renders a node back to source-shaped text; this models ts-morph's
`getText()` (the original source slice) which the detectors probe with
substring tests and small regexes. -/

def BinOp.text : BinOp → String
  | .plus => "+"
  | .ampAmp => "&&"
  | .barBar => "||"
  | .other t => t

def DeclKind.text : DeclKind → String
  | .constKw => "const"
  | .letKw => "let"
  | .varKw => "var"

mutual

def Ts.getText : Ts → String
  | .ident _ n => n
  | .numLit _ v => toString v
  | .strLit _ s => "\x27" ++ s ++ "\x27"
  | .templateExpr _ h spans => "`" ++ h ++ Ts.getTextCat spans ++ "`"
  | .templateSpan _ e lit => "$\x7b" ++ Ts.getText e ++ "\x7d" ++ lit
  | .binaryExpr _ op l r =>
    Ts.getText l ++ " " ++ op.text ++ " " ++ Ts.getText r
  | .propAccess _ o n => Ts.getText o ++ "." ++ n
  | .elemAccess _ o i => Ts.getText o ++ "[" ++ Ts.getText i ++ "]"
  | .callExpr _ f as => Ts.getText f ++ "(" ++ Ts.getTextComma as ++ ")"
  | .newExpr _ f as =>
    "new " ++ Ts.getText f ++ "(" ++ Ts.getTextComma as ++ ")"
  | .awaitExpr _ e => "await " ++ Ts.getText e
  | .postUnary _ e op => Ts.getText e ++ op
  | .objLit _ ps => "\x7b " ++ Ts.getTextComma ps ++ " \x7d"
  | .propAssign _ k v => k ++ ": " ++ Ts.getText v
  | .arrayLit _ es => "[" ++ Ts.getTextComma es ++ "]"
  | .arrowFunction _ isAsync ps b =>
    (if isAsync then "async " else "") ++ "(" ++ Ts.getTextComma ps
      ++ ") => " ++ Ts.getText b
  | .funcDecl _ isAsync n ps b =>
    (if isAsync then "async " else "") ++ "function "
      ++ n.getD "" ++ "(" ++ Ts.getTextComma ps ++ ") " ++ Ts.getTextOpt b
  | .methodDecl _ isAsync n ps b =>
    (if isAsync then "async " else "") ++ n ++ "(" ++ Ts.getTextComma ps
      ++ ") " ++ Ts.getTextOpt b
  | .param _ n => n
  | .varDecl _ n i =>
    n ++ (match i with
          | none => ""
          | some e => " = " ++ Ts.getText e)
  | .varStmt _ k ds => k.text ++ " " ++ Ts.getTextComma ds
  | .exprStmt _ e => Ts.getText e
  | .retStmt _ e =>
    "return" ++ (match e with
                 | none => ""
                 | some x => " " ++ Ts.getText x)
  | .throwStmt _ e => "throw " ++ Ts.getText e
  | .block _ ss => "\x7b " ++ Ts.getTextSp ss ++ " \x7d"
  | .commentStmt _ txt => txt
  | .ifStmt _ c th el =>
    "if (" ++ Ts.getText c ++ ") " ++ Ts.getText th
      ++ (match el with
          | none => ""
          | some e => " else " ++ Ts.getText e)
  | .condExpr _ c a b =>
    Ts.getText c ++ " ? " ++ Ts.getText a ++ " : " ++ Ts.getText b
  | .forStmt _ i c n b =>
    "for (" ++ Ts.getTextOpt i ++ "; " ++ Ts.getTextOpt c ++ "; "
      ++ Ts.getTextOpt n ++ ") " ++ Ts.getText b
  | .forInStmt _ i e b =>
    "for (" ++ Ts.getText i ++ " in " ++ Ts.getText e ++ ") " ++ Ts.getText b
  | .forOfStmt _ i e b =>
    "for (" ++ Ts.getText i ++ " of " ++ Ts.getText e ++ ") " ++ Ts.getText b
  | .whileStmt _ c b => "while (" ++ Ts.getText c ++ ") " ++ Ts.getText b
  | .doStmt _ b c => "do " ++ Ts.getText b ++ " while (" ++ Ts.getText c ++ ")"
  | .switchStmt _ e cs =>
    "switch (" ++ Ts.getText e ++ ") \x7b " ++ Ts.getTextSp cs ++ " \x7d"
  | .caseClause _ e ss => "case " ++ Ts.getText e ++ ": " ++ Ts.getTextSp ss
  | .defaultClause _ ss => "default: " ++ Ts.getTextSp ss
  | .tryStmt _ tb cc fb =>
    "try " ++ Ts.getText tb
      ++ (match cc with
          | none => ""
          | some c => " " ++ Ts.getText c)
      ++ (match fb with
          | none => ""
          | some f => " finally " ++ Ts.getText f)
  | .catchClause _ b body =>
    "catch " ++ (match b with
                 | none => ""
                 | some x => "(" ++ Ts.getText x ++ ") ") ++ Ts.getText body
  | .arrayBindingPattern _ es => "[" ++ Ts.getTextComma es ++ "]"

def Ts.getTextComma : List Ts → String
  | [] => ""
  | [x] => Ts.getText x
  | x :: y :: xs => Ts.getText x ++ ", " ++ Ts.getTextComma (y :: xs)

def Ts.getTextSp : List Ts → String
  | [] => ""
  | [x] => Ts.getText x
  | x :: y :: xs => Ts.getText x ++ " " ++ Ts.getTextSp (y :: xs)

def Ts.getTextCat : List Ts → String
  | [] => ""
  | x :: xs => Ts.getText x ++ Ts.getTextCat xs

def Ts.getTextOpt : Option Ts → String
  | none => ""
  | some x => Ts.getText x

end

/-! ### Derived queries -/

/-- A parsed source file: the raw text lines (for the line-oriented scans)
together with the top-level statements of the syntax tree. -/
structure SrcFile where
  lines : List String
  statements : List Ts

/-- Every node of the file, paired with its ancestor chain, in pre-order. -/
def SrcFile.nodes (sf : SrcFile) : List (Ts × List Ts) :=
  Ts.nodesAncL sf.statements []

/-- `sourceFile.getDescendantsOfKind(k)` (with ancestor chains). -/
def SrcFile.descendantsOfKind (sf : SrcFile) (k : Kind) : List (Ts × List Ts) :=
  sf.nodes.filter (fun n => n.1.kind == k)

/-- `node.getDescendantsOfKind(k)` — proper descendants of one node. -/
def Ts.descendantsOfKind (t : Ts) (k : Kind) : List Ts :=
  ((t.nodesAnc []).map Prod.fst).drop 1 |>.filter (fun n => n.kind == k)

/-- Pre-order list of the proper descendants of a node
(`forEachDescendant`). -/
def Ts.descendants (t : Ts) : List Ts :=
  ((t.nodesAnc []).map Prod.fst).drop 1

/-- `node.getFirstAncestorByKind(k)` given the node's ancestor chain. -/
def firstAncestorByKind (anc : List Ts) (k : Kind) : Option Ts :=
  anc.find? (fun n => n.kind == k)

/-- `node.getFirstDescendantByKind(k)` (pre-order first). -/
def Ts.firstDescendantByKind (t : Ts) (k : Kind) : Option Ts :=
  t.descendants.find? (fun n => n.kind == k)

/-- The ancestor chain strictly above the first ancestor of kind `k`
(used when a query continues from a found ancestor). -/
def chainAfterFirst : List Ts → Kind → Option (List Ts)
  | [], _ => none
  | x :: xs, k => if x.kind == k then some xs else chainAfterFirst xs k

def Ts.propName : Ts → Option String
  | .propAccess _ _ n => some n
  | _ => none

/-- `node.getSymbol()?.getName()` for function-like nodes. -/
def Ts.symbolName : Ts → Option String
  | .funcDecl _ _ n _ _ => n
  | .methodDecl _ _ n _ _ => some n
  | _ => none

/-! ## Built-in denylists (packages/shared/src/constants/index.ts) -/

def DEFAULT_GENERIC_VARIABLE_NAMES : List String :=
  ["data", "result", "results", "response", "res", "resp", "value", "val",
   "item", "items", "element", "elem", "temp", "tmp", "foo", "bar", "baz",
   "obj", "object", "thing", "stuff", "arr", "array", "list", "str",
   "string", "num", "number", "ret", "return", "output", "out"]

def DEFAULT_LOOP_VARIABLE_NAMES : List String := ["i", "j", "k", "n", "m"]

def DEFAULT_COORDINATE_VARIABLE_NAMES : List String := ["x", "y", "z", "w"]

def DEFAULT_GENERIC_ERROR_MESSAGES : List String :=
  ["an error occurred", "something went wrong", "error", "failed", "oops",
   "unknown error", "internal error", "unexpected error"]

/-- Backwards-compatibility alias used by `ErrorHandlingDetector`. -/
def GENERIC_ERROR_MESSAGES : List String := DEFAULT_GENERIC_ERROR_MESSAGES

/-! ## BaseDetector.createPattern (packages/core/src/detectors/base.ts) -/

structure PatternOptions where
  severity : Option Severity := none
  startColumn : Option Nat := none
  endColumn : Option Nat := none
  suggestion : Option String := none
  confidence : Option Nat := none
  autoFixAvailable : Option Bool := none

/-- `createPattern`: fills common fields.  `now` models `Date.now()`; it
flows only into `id` and `detectedAt`. -/
def createPattern (detectorId : String) (now : Nat) (type : PatternType)
    (file : String) (startLine endLine : Nat)
    (description explanation codeSnippet : String)
    (options : PatternOptions) : DetectedPattern :=
  { id := detectorId ++ "-" ++ file ++ "-" ++ toString startLine ++ "-"
      ++ toString now
    type := type
    severity := options.severity.getD .warning
    file := file
    startLine := startLine
    endLine := endLine
    startColumn := options.startColumn
    endColumn := options.endColumn
    description := description
    explanation := explanation
    codeSnippet := codeSnippet
    suggestion := options.suggestion
    autoFixAvailable := options.autoFixAvailable.getD false
    confidence := options.confidence.getD 80
    detectorId := detectorId
    detectedAt := now }

/-- A pattern with the run-specific fields (`id`, `detectedAt`) removed;
the determinism property compares patterns up to `erase`. -/
structure PatternCore where
  type : PatternType
  severity : Severity
  file : String
  startLine : Nat
  endLine : Nat
  startColumn : Option Nat
  endColumn : Option Nat
  description : String
  explanation : String
  codeSnippet : String
  suggestion : Option String
  autoFixAvailable : Bool
  confidence : Nat
  detectorId : String
deriving DecidableEq, Repr

def erase (p : DetectedPattern) : PatternCore :=
  { type := p.type
    severity := p.severity
    file := p.file
    startLine := p.startLine
    endLine := p.endLine
    startColumn := p.startColumn
    endColumn := p.endColumn
    description := p.description
    explanation := p.explanation
    codeSnippet := p.codeSnippet
    suggestion := p.suggestion
    autoFixAvailable := p.autoFixAvailable
    confidence := p.confidence
    detectorId := p.detectorId }

def asciiUpper (s : String) : String :=
  String.mk (s.data.map Char.toUpper)

/-! ## NamingPatternDetector (packages/core/src/detectors/naming.ts,
settings-aware version) -/

namespace NamingPatternDetector

def id : String := "naming"

def patternTypes : List PatternType :=
  [.generic_variable_name, .inconsistent_naming]

def languages : List SupportedLanguage := [.typescript, .javascript]

/-- Cached name sets, built from defaults plus user settings
(`initializeSets`): settings extend the built-ins via set union. -/
structure NamingSets where
  genericVariableNames : List String
  loopVariableNames : List String
  coordinateVariableNames : List String

def initializeSets (settings : Option DetectorSettings) : NamingSets :=
  { genericVariableNames := DEFAULT_GENERIC_VARIABLE_NAMES
      ++ ((settings.map (fun s => s.genericVariableNames.map asciiLower)).getD [])
    loopVariableNames := DEFAULT_LOOP_VARIABLE_NAMES
      ++ ((settings.map (fun s => s.loopVariableNames)).getD [])
    coordinateVariableNames := DEFAULT_COORDINATE_VARIABLE_NAMES
      ++ ((settings.map (fun s => s.coordinateVariableNames)).getD []) }

def isGenericName (sets : NamingSets) (name : String) : Bool :=
  sets.genericVariableNames.contains (asciiLower name)
    || (name.length == 1
        && !sets.loopVariableNames.contains name
        && !sets.coordinateVariableNames.contains name)

def isAcceptableContext (sets : NamingSets) (anc : List Ts) (name : String) :
    Bool :=
  -- Loop variables in for loops
  (sets.loopVariableNames.contains name
    && ((firstAncestorByKind anc .forStmt).isSome
        || (firstAncestorByKind anc .forOfStmt).isSome
        || (firstAncestorByKind anc .forInStmt).isSome))
  -- Coordinate variables: allowed without context check
  || sets.coordinateVariableNames.contains name
  -- Catch clause variables
  || ((firstAncestorByKind anc .catchClause).isSome
      && ["e", "err", "error"].contains (asciiLower name))
  -- Array destructuring with length-1 names
  || ((firstAncestorByKind anc .arrayBindingPattern).isSome
      && name.length == 1)
  -- Callback parameters like .map(item => ...)
  || (match chainAfterFirst anc .arrowFunction with
      | none => false
      | some rest =>
        match firstAncestorByKind rest .callExpr with
        | none => false
        | some callE =>
          let methodName :=
            (callE.firstDescendantByKind .propAccess).bind Ts.propName
          ["map", "filter", "forEach", "reduce", "find", "some",
           "every"].contains (methodName.getD ""))

def detectNamingConvention (name : String) : String :=
  if strContains name "_" && name == asciiLower name then "snake_case"
  else if strContains name "_" && name == asciiUpper name then
    "SCREAMING_SNAKE_CASE"
  else if (match name.data with
           | [] => false
           | c :: cs => c.isLower && cs.all (fun d => d.isAlpha || d.isDigit))
          && name != asciiLower name then "camelCase"
  else if (match name.data with
           | [] => false
           | c :: cs => c.isUpper && cs.all (fun d => d.isAlpha || d.isDigit))
    then "PascalCase"
  else "unknown"

def suggestBetterName (name : String) (node : Ts) : String :=
  let fallback := "Consider a name that describes the purpose or content of this "
    ++ name
  match node with
  | .varDecl _ _ (some initializer) =>
    match initializer with
    | .callExpr _ callee _ =>
      let funcName := callee.getText
      if strStartsWith funcName "get" then
        "Consider: " ++ asciiLower (replaceFirst funcName "get" "") ++ " or "
          ++ funcName ++ "Result"
      else if strStartsWith funcName "fetch" then
        "Consider: " ++ asciiLower (replaceFirst funcName "fetch" "") ++ " or "
          ++ funcName ++ "Response"
      else "Consider naming based on what " ++ funcName ++ "() returns"
    | .awaitExpr _ inner =>
      match inner with
      | .callExpr _ callee _ =>
        "Consider naming based on the async operation: " ++ callee.getText
      | _ => fallback
    | _ => fallback
  | _ => fallback

def analyzeVariableDeclarations (sets : NamingSets) (now : Nat)
    (sf : SrcFile) (filePath : String) : List DetectedPattern :=
  (sf.descendantsOfKind .varDecl).filterMap (fun node =>
    match node with
    | (decl@(.varDecl _ name initializer), anc) =>
      if !isGenericName sets name then none
      else if isAcceptableContext sets anc name then none
      else
        let initializerText := initializer.map (fun i => strTake (Ts.getText i) 50)
        some (createPattern id now .generic_variable_name filePath
          decl.startLine decl.endLine
          ("Variable \"" ++ name ++ "\" is a generic name")
          ("Consider renaming to describe what \"" ++ name ++ "\" contains. "
            ++ (match initializerText with
                | some t => "It\x27s assigned: " ++ t ++ "..."
                | none => ""))
          decl.getText
          { severity := some .warning
            suggestion := some (suggestBetterName name decl)
            confidence := some 85 })
    | _ => none)

def analyzeFunctionParameters (sets : NamingSets) (now : Nat)
    (sf : SrcFile) (filePath : String) : List DetectedPattern :=
  (sf.descendantsOfKind .param).filterMap (fun node =>
    match node with
    | (p@(.param _ name), anc) =>
      if !isGenericName sets name then none
      else if isAcceptableContext sets anc name then none
      else
        let parentFunc :=
          match firstAncestorByKind anc .funcDecl with
          | some f => some f
          | none =>
            match firstAncestorByKind anc .arrowFunction with
            | some f => some f
            | none => firstAncestorByKind anc .methodDecl
        let funcName := (parentFunc.bind Ts.symbolName).getD "anonymous function"
        some (createPattern id now .generic_variable_name filePath
          p.startLine p.endLine
          ("Parameter \"" ++ name ++ "\" in " ++ funcName
            ++ " is a generic name")
          "Consider a more descriptive name that indicates the parameter\x27s purpose"
          p.getText
          { severity := some .warning, confidence := some 80 })
    | _ => none)

/-- Distinct values, keeping first occurrences (JS `Set` / `Map` insertion
order). -/
def dedupFirst (l : List String) : List String :=
  l.foldl (fun acc x => if acc.contains x then acc else acc ++ [x]) []

def analyzeNamingConsistency (now : Nat) (sf : SrcFile) (filePath : String) :
    List DetectedPattern :=
  let identifiers : List (String × String × Nat) :=
    (sf.descendantsOfKind .varDecl).filterMap (fun node =>
      match node with
      | (d@(.varDecl _ name _), _) =>
        some (name, detectNamingConvention name, d.startLine)
      | _ => none)
  let conventions :=
    (dedupFirst (identifiers.map (fun i => i.2.1))).filter
      (fun c => c ≠ "unknown")
  if conventions.length > 1 then
    -- Dominant convention: strictly greatest count, first-inserted wins ties
    let countOf := fun c => identifiers.countP (fun i => i.2.1 == c)
    let dominantConvention :=
      (conventions.foldl (fun acc c =>
        if countOf c > acc.2 then (c, countOf c) else acc) ("", 0)).1
    (identifiers.filter (fun i =>
        i.2.1 ≠ "unknown" && i.2.1 ≠ dominantConvention)).map (fun i =>
      createPattern id now .inconsistent_naming filePath i.2.2 i.2.2
        ("Variable \"" ++ i.1 ++ "\" uses " ++ i.2.1
          ++ " but file predominantly uses " ++ dominantConvention)
        ("Consistent naming conventions improve code readability. Consider renaming to match the "
          ++ dominantConvention ++ " convention used elsewhere.")
        i.1
        { severity := some .info, confidence := some 70 })
  else []

/-- `NamingPatternDetector.analyze(content, filePath, settings)`. -/
def analyze (now : Nat) (sf : SrcFile) (filePath : String)
    (settings : Option DetectorSettings) : List DetectedPattern :=
  let sets := initializeSets settings
  analyzeVariableDeclarations sets now sf filePath
    ++ analyzeFunctionParameters sets now sf filePath
    ++ analyzeNamingConsistency now sf filePath

end NamingPatternDetector

/-! ## ErrorHandlingDetector (packages/core/src/detectors/errorHandling.ts) -/

def truncateCode (code : String) (maxLength : Nat) : String :=
  if code.length ≤ maxLength then code
  else strTake code (maxLength - 3) ++ "..."

/-- `catchClause.getVariableDeclaration()?.getName()`. -/
def Ts.catchVarName : Ts → Option String
  | .catchClause _ (some (.varDecl _ n _)) _ => some n
  | _ => none

def Ts.catchBody : Ts → Option Ts
  | .catchClause _ _ b => some b
  | _ => none

def Ts.isAsyncFn : Ts → Bool
  | .funcDecl _ a _ _ _ => a
  | .arrowFunction _ a _ _ => a
  | .methodDecl _ a _ _ _ => a
  | _ => false

def Ts.fnBody : Ts → Option Ts
  | .funcDecl _ _ _ _ b => b
  | .methodDecl _ _ _ _ b => b
  | .arrowFunction _ _ _ b => some b
  | _ => none

/-! `Ts.unprotAwait` counts the `await` expressions in a subtree that are
not lexically inside the try-block of any `try` statement
(`isDescendantOf(awaitExpr, tryBlock)` expressed as a path flag: `under` is
true when the walk has passed through a try-block slot). -/

mutual

def Ts.unprotAwait : Bool → Ts → Nat
  | _, .ident _ _ => 0
  | _, .numLit _ _ => 0
  | _, .strLit _ _ => 0
  | under, .templateExpr _ _ spans => Ts.unprotAwaitL under spans
  | under, .templateSpan _ e _ => Ts.unprotAwait under e
  | under, .binaryExpr _ _ l r =>
    Ts.unprotAwait under l + Ts.unprotAwait under r
  | under, .propAccess _ o _ => Ts.unprotAwait under o
  | under, .elemAccess _ o i =>
    Ts.unprotAwait under o + Ts.unprotAwait under i
  | under, .callExpr _ f as =>
    Ts.unprotAwait under f + Ts.unprotAwaitL under as
  | under, .newExpr _ f as =>
    Ts.unprotAwait under f + Ts.unprotAwaitL under as
  | under, .awaitExpr _ e =>
    (if under then 0 else 1) + Ts.unprotAwait under e
  | under, .postUnary _ e _ => Ts.unprotAwait under e
  | under, .objLit _ ps => Ts.unprotAwaitL under ps
  | under, .propAssign _ _ v => Ts.unprotAwait under v
  | under, .arrayLit _ es => Ts.unprotAwaitL under es
  | under, .arrowFunction _ _ ps b =>
    Ts.unprotAwaitL under ps + Ts.unprotAwait under b
  | under, .funcDecl _ _ _ ps b =>
    Ts.unprotAwaitL under ps + Ts.unprotAwaitO under b
  | under, .methodDecl _ _ _ ps b =>
    Ts.unprotAwaitL under ps + Ts.unprotAwaitO under b
  | _, .param _ _ => 0
  | under, .varDecl _ _ i => Ts.unprotAwaitO under i
  | under, .varStmt _ _ ds => Ts.unprotAwaitL under ds
  | under, .exprStmt _ e => Ts.unprotAwait under e
  | under, .retStmt _ e => Ts.unprotAwaitO under e
  | under, .throwStmt _ e => Ts.unprotAwait under e
  | under, .block _ ss => Ts.unprotAwaitL under ss
  | _, .commentStmt _ _ => 0
  | under, .ifStmt _ c th el =>
    Ts.unprotAwait under c + Ts.unprotAwait under th + Ts.unprotAwaitO under el
  | under, .condExpr _ c a b =>
    Ts.unprotAwait under c + Ts.unprotAwait under a + Ts.unprotAwait under b
  | under, .forStmt _ i c n b =>
    Ts.unprotAwaitO under i + Ts.unprotAwaitO under c
      + Ts.unprotAwaitO under n + Ts.unprotAwait under b
  | under, .forInStmt _ i e b =>
    Ts.unprotAwait under i + Ts.unprotAwait under e + Ts.unprotAwait under b
  | under, .forOfStmt _ i e b =>
    Ts.unprotAwait under i + Ts.unprotAwait under e + Ts.unprotAwait under b
  | under, .whileStmt _ c b =>
    Ts.unprotAwait under c + Ts.unprotAwait under b
  | under, .doStmt _ b c =>
    Ts.unprotAwait under b + Ts.unprotAwait under c
  | under, .switchStmt _ e cs =>
    Ts.unprotAwait under e + Ts.unprotAwaitL under cs
  | under, .caseClause _ e ss =>
    Ts.unprotAwait under e + Ts.unprotAwaitL under ss
  | under, .defaultClause _ ss => Ts.unprotAwaitL under ss
  | under, .tryStmt _ tb cc fb =>
    Ts.unprotAwait true tb + Ts.unprotAwaitO under cc
      + Ts.unprotAwaitO under fb
  | under, .catchClause _ b body =>
    Ts.unprotAwaitO under b + Ts.unprotAwait under body
  | under, .arrayBindingPattern _ es => Ts.unprotAwaitL under es

def Ts.unprotAwaitL : Bool → List Ts → Nat
  | _, [] => 0
  | under, x :: xs => Ts.unprotAwait under x + Ts.unprotAwaitL under xs

def Ts.unprotAwaitO : Bool → Option Ts → Nat
  | _, none => 0
  | under, some x => Ts.unprotAwait under x

end

namespace ErrorHandlingDetector

def id : String := "error_handling"

def patternTypes : List PatternType :=
  [.empty_catch_block, .swallowed_error, .missing_error_boundary,
   .generic_error_message, .try_without_catch]

def languages : List SupportedLanguage := [.typescript, .javascript]

/-- A block is "effectively empty" when it has no statements or every
statement is a comment line. -/
def isEffectivelyEmpty (blk : Ts) : Bool :=
  match blk with
  | .block _ stmts =>
    if stmts.length == 0 then true
    else
      let hasCode := stmts.any (fun stmt =>
        let text := strTrim (Ts.getText stmt)
        !(strStartsWith text "//") && !(strStartsWith text "/*"))
      !hasCode
  | _ => false

def detectEmptyCatchBlocks (now : Nat) (sf : SrcFile) (filePath : String) :
    List DetectedPattern :=
  (sf.descendantsOfKind .catchClause).filterMap (fun node =>
    match node with
    | (cc@(.catchClause _ _ blk), _) =>
      if isEffectivelyEmpty blk then
        let errorParam := cc.catchVarName.getD "error"
        some (createPattern id now .empty_catch_block filePath
          cc.startLine cc.endLine
          "Empty catch block silently swallows errors"
          ("Empty catch blocks hide errors and make debugging extremely difficult. "
            ++ "At minimum, log the error or add a comment explaining why it\x27s intentionally ignored.")
          cc.getText
          { severity := some .critical
            suggestion := some ("catch (" ++ errorParam
              ++ ") \x7b\n  console.error(\x27Operation failed:\x27, "
              ++ errorParam ++ ");\n  throw " ++ errorParam
              ++ "; // or handle appropriately\n\x7d")
            confidence := some 95
            autoFixAvailable := some true })
      else none
    | _ => none)

def detectSwallowedErrors (now : Nat) (sf : SrcFile) (filePath : String) :
    List DetectedPattern :=
  (sf.descendantsOfKind .catchClause).filterMap (fun node =>
    match node with
    | (cc@(.catchClause _ _ blk), _) =>
      match cc.catchVarName with
      | none => none
      | some errorParam =>
        if isEffectivelyEmpty blk then none
        else
          let errorUsages := (blk.descendantsOfKind .ident).filter
            (fun n => Ts.getText n == errorParam)
          if errorUsages.length == 0 then
            some (createPattern id now .swallowed_error filePath
              cc.startLine cc.endLine
              ("Caught error \"" ++ errorParam ++ "\" is never used")
              ("The error is caught but never logged, rethrown, or otherwise handled. "
                ++ "This can hide important error information.")
              cc.getText
              { severity := some .warning
                suggestion := some ("Consider logging the error: console.error(\x27Operation failed:\x27, "
                  ++ errorParam ++ ");")
                confidence := some 85 })
          else none
    | _ => none)

/-- Findings `detectTryWithoutCatch` produces for a single `try`
statement. -/
def tryWithoutCatchFindings (now : Nat) (filePath : String) (t : Ts) :
    List DetectedPattern :=
  match t with
  | .tryStmt _ tb cc fb =>
    match cc, fb with
    | none, none =>
      -- try without catch or finally - syntax error; skip other checks
      [createPattern id now .empty_catch_block filePath
        t.startLine t.endLine
        "try block without catch or finally - syntax error"
        ("A try block must have either a catch clause, a finally clause, or both. "
          ++ "This code will fail to parse at runtime.")
        (truncateCode t.getText 200)
        { severity := some .critical
          suggestion := some "Add a catch clause to handle errors, or a finally clause for cleanup"
          confidence := some 100 }]
    | none, some _ =>
      -- try...finally without catch
      let hasAwait := (tb.descendantsOfKind .awaitExpr).length > 0
      let hasThrow := (tb.descendantsOfKind .throwStmt).length > 0
      let hasCalls := (tb.descendantsOfKind .callExpr).length > 0
      if hasAwait || hasThrow || hasCalls then
        [createPattern id now .try_without_catch filePath
          t.startLine t.endLine
          "try...finally without catch - errors will propagate"
          ("This try block has a finally clause but no catch. Errors will propagate to the caller. "
            ++ "This is valid for cleanup patterns, but consider if errors should be handled here.")
          (truncateCode t.getText 200)
          { severity := some .info
            suggestion := some "Add a catch clause if errors should be handled at this level, or document why propagation is intended"
            confidence := some 60 }]
      else []
    | some _, _ => []
  | _ => []

def detectTryWithoutCatch (now : Nat) (sf : SrcFile) (filePath : String) :
    List DetectedPattern :=
  (sf.descendantsOfKind .tryStmt).flatMap
    (fun node => tryWithoutCatchFindings now filePath node.1)

def getFunctionName (func : Ts) (anc : List Ts) : Option String :=
  match func with
  | .funcDecl _ _ n _ _ => n
  | .methodDecl _ _ n _ _ => some n
  | _ =>
    -- Arrow functions: try to get the name from a variable declaration
    match firstAncestorByKind anc .varDecl with
    | some (.varDecl _ n _) => some n
    | _ => none

def detectMissingErrorBoundaries (now : Nat) (sf : SrcFile)
    (filePath : String) : List DetectedPattern :=
  let asyncFunctions :=
    (sf.descendantsOfKind .funcDecl).filter (fun n => n.1.isAsyncFn)
      ++ (sf.descendantsOfKind .arrowFunction).filter (fun n => n.1.isAsyncFn)
      ++ (sf.descendantsOfKind .methodDecl).filter (fun n => n.1.isAsyncFn)
  asyncFunctions.filterMap (fun node =>
    match node.1.fnBody with
    | none => none
    | some body =>
      let awaitExpressions := body.descendantsOfKind .awaitExpr
      if awaitExpressions.length == 0 then none
      else
        let unprotectedCount := Ts.unprotAwait false body
        if unprotectedCount > 0 then
          let funcName := getFunctionName node.1 node.2
          some (createPattern id now .missing_error_boundary filePath
            node.1.startLine
            (min node.1.endLine (node.1.startLine + 10))
            ("Async function"
              ++ (match funcName with
                  | some nm => " \"" ++ nm ++ "\""
                  | none => "")
              ++ " has unhandled promise rejections")
            ("This async function has " ++ toString unprotectedCount
              ++ " await expression(s) without error handling. "
              ++ "Unhandled rejections can crash your application or cause silent failures.")
            (truncateCode node.1.getText 300)
            { severity := some .warning
              suggestion := some "Wrap await calls in try-catch or add .catch() handler"
              confidence := some 75 })
        else none)

def isInErrorContext (anc : List Ts) : Bool :=
  -- inside a throw statement
  (firstAncestorByKind anc .throwStmt).isSome
  -- argument to an Error constructor
  || (match firstAncestorByKind anc .newExpr with
      | some (.newExpr _ callee _) =>
        let nm := callee.getText
        nm == "Error" || strEndsWith nm "Error"
      | _ => false)
  -- inside a catch clause
  || (firstAncestorByKind anc .catchClause).isSome
  -- argument to reject()
  || (match firstAncestorByKind anc .callExpr with
      | some (.callExpr _ callee _) => callee.getText == "reject"
      | _ => false)

def detectGenericErrorMessages (now : Nat) (sf : SrcFile)
    (filePath : String) : List DetectedPattern :=
  (sf.descendantsOfKind .strLit).filterMap (fun node =>
    match node with
    | (lit@(.strLit _ raw), anc) =>
      let text := asciiLower raw
      let isGeneric := GENERIC_ERROR_MESSAGES.any (fun msg =>
        text == msg || (text.length < 30 && strContains text msg))
      if !isGeneric then none
      else if isInErrorContext anc then
        some (createPattern id now .generic_error_message filePath
          lit.startLine lit.endLine
          "Generic error message provides no debugging context"
          ("Error messages should describe what operation failed and why. "
            ++ "Generic messages make debugging difficult.")
          lit.getText
          { severity := some .info
            suggestion := some "Include operation name, input values, and specific failure reason"
            confidence := some 70 })
      else none
    | _ => none)

/-- `ErrorHandlingDetector.analyze(content, filePath)` — note: takes no
settings parameter; the orchestrator's third argument is ignored. -/
def analyze (now : Nat) (sf : SrcFile) (filePath : String) :
    List DetectedPattern :=
  detectEmptyCatchBlocks now sf filePath
    ++ detectSwallowedErrors now sf filePath
    ++ detectTryWithoutCatch now sf filePath
    ++ detectMissingErrorBoundaries now sf filePath
    ++ detectGenericErrorMessages now sf filePath

end ErrorHandlingDetector

/-! ## Secret patterns (DEFAULT_SECRET_PATTERNS in
packages/shared/src/constants/index.ts)

Each source regex is modelled by an executable scanner over `List Char`
returning the matched text (`match[0]`) when the pattern matches at the
start of the input; `execSearch` tries every start position left to right,
giving JS `RegExp.exec` leftmost-match semantics. -/

def singleQuoteChar : Char := Char.ofNat 39

def isQuoteChar (c : Char) : Bool := c = singleQuoteChar || c = '"'

/-- Scanner for the shape `(?:keys)\s*[:=]\s*['"][^'"]+['"]` (predicate `/i`:
keys are matched case-insensitively; `keys` are given lowercased, listed in
the regex's alternation order). -/
def matchKeyValAt (keys : List String) (cs : List Char) :
    Option (List Char) :=
  match keys with
  | [] => none
  | key :: restKeys =>
    let attempt :=
      let n := key.length
      let pre := cs.take n
      if pre.map Char.toLower ≠ key.data then none
      else
        let rest1 := cs.drop n
        let (ws1, rest2) := rest1.span isWsChar
        match rest2 with
        | sep :: rest3 =>
          if sep = ':' || sep = '=' then
            let (ws2, rest4) := rest3.span isWsChar
            match rest4 with
            | q1 :: rest5 =>
              if isQuoteChar q1 then
                let (content, rest6) := rest5.span (fun c => !isQuoteChar c)
                match rest6 with
                | q2 :: _ =>
                  if content.length ≥ 1 && isQuoteChar q2 then
                    some (pre ++ ws1 ++ [sep] ++ ws2 ++ [q1] ++ content ++ [q2])
                  else none
                | [] => none
              else none
            | [] => none
          else none
        | [] => none
    match attempt with
    | some m => some m
    | none => matchKeyValAt restKeys cs

def isB64UrlChar (c : Char) : Bool := c.isAlphanum || c = '-' || c = '_'

/-- Scanner for `Bearer\s+[A-Za-z0-9\-_]+\.[A-Za-z0-9\-_]+\.[A-Za-z0-9\-_]+`
(case-sensitive). -/
def matchBearerAt (cs : List Char) : Option (List Char) :=
  if !("Bearer".data.isPrefixOf cs) then none
  else
    let rest1 := cs.drop 6
    let (ws, rest2) := rest1.span isWsChar
    if ws.length == 0 then none
    else
      let (s1, r1) := rest2.span isB64UrlChar
      if s1.length == 0 then none
      else
        match r1 with
        | '.' :: r2 =>
          let (s2, r3) := r2.span isB64UrlChar
          if s2.length == 0 then none
          else
            match r3 with
            | '.' :: r4 =>
              let (s3, _) := r4.span isB64UrlChar
              if s3.length == 0 then none
              else some ("Bearer".data ++ ws ++ s1 ++ ['.'] ++ s2 ++ ['.'] ++ s3)
            | _ => none
        | _ => none

def matchLit (lit : String) (cs : List Char) :
    Option (List Char × List Char) :=
  if lit.data.isPrefixOf cs then some (cs.take lit.length, cs.drop lit.length)
  else none

def matchWs1 (cs : List Char) : Option (List Char × List Char) :=
  let (ws, r) := cs.span isWsChar
  if ws.length == 0 then none else some (ws, r)

/-- Scanner for `-----BEGIN\s+(?:RSA\s+)?PRIVATE\s+KEY-----`. -/
def matchPemAt (cs : List Char) : Option (List Char) :=
  match matchLit "-----BEGIN" cs with
  | none => none
  | some (m1, r1) =>
    match matchWs1 r1 with
    | none => none
    | some (w1, r2) =>
      let tailMatch := fun (r : List Char) =>
        match matchLit "PRIVATE" r with
        | none => none
        | some (m3, r3) =>
          match matchWs1 r3 with
          | none => none
          | some (w3, r4) =>
            match matchLit "KEY-----" r4 with
            | none => none
            | some (m4, _) => some (m3 ++ w3 ++ m4)
      let withRsa :=
        match matchLit "RSA" r2 with
        | none => none
        | some (m2, rr) =>
          match matchWs1 rr with
          | none => none
          | some (w2, rr2) =>
            (tailMatch rr2).map (fun t => m2 ++ w2 ++ t)
      match withRsa with
      | some t => some (m1 ++ w1 ++ t)
      | none =>
        match tailMatch r2 with
        | some t => some (m1 ++ w1 ++ t)
        | none => none

def SECRET_PATTERNS : List (List Char → Option (List Char)) :=
  [matchKeyValAt ["api_key", "api-key", "apikey"],
   matchKeyValAt ["secret", "password", "passwd", "pwd"],
   matchKeyValAt ["token", "auth"],
   matchKeyValAt ["private_key", "private-key", "privatekey"],
   matchBearerAt,
   matchPemAt]

/-- Leftmost match: try the scanner at every start position. -/
def execSearch (m : List Char → Option (List Char)) :
    List Char → Option String
  | [] => (m []).map String.mk
  | c :: cs =>
    match m (c :: cs) with
    | some r => some (String.mk r)
    | none => execSearch m cs

/-! ## SecurityDetector (packages/core/src/detectors/security.ts) -/

/-- Rest of the input after the first occurrence of `pat`. -/
def dropThroughFirst (pat : List Char) : List Char → Option (List Char)
  | [] => none
  | c :: cs =>
    if pat.isPrefixOf (c :: cs) then some ((c :: cs).drop pat.length)
    else dropThroughFirst pat cs

namespace SecurityDetector

def id : String := "security"

def patternTypes : List PatternType :=
  [.hardcoded_secret, .sql_concatenation, .unsafe_eval, .insecure_random]

def languages : List SupportedLanguage := [.typescript, .javascript]

/-- `shouldSkipFile`: test/spec/__tests__/config/example/sample paths. -/
def shouldSkipFile (filePath : String) : Bool :=
  [".test.ts", ".test.js", ".test.tsx", ".test.jsx"].any
    (fun s => strEndsWith filePath s)
  || [".spec.ts", ".spec.js", ".spec.tsx", ".spec.jsx"].any
    (fun s => strEndsWith filePath s)
  || strContains filePath "__tests__"
  || [".config.ts", ".config.js"].any (fun s => strEndsWith filePath s)
  || strContains filePath ".example."
  || strContains filePath ".sample."

/-- `/process\.env\.|import\.meta\.env\.|\$\{.*env.*\}/i`. -/
def isEnvironmentVariable (line : String) : Bool :=
  let lower := asciiLower line
  strContains lower "process.env."
  || strContains lower "import.meta.env."
  || (((dropThroughFirst "$\x7b".data lower.data).bind
        (dropThroughFirst "env".data)).bind
        (dropThroughFirst "\x7d".data)).isSome

/-- First `/['"]([^'"]+)['"]/` capture group. -/
def firstQuotedValue : List Char → Option (List Char)
  | [] => none
  | c :: cs =>
    if isQuoteChar c then
      let (content, rest) := cs.span (fun d => !isQuoteChar d)
      match content, rest with
      | _ :: _, _ :: _ => some content
      | _, _ => firstQuotedValue cs
    else firstQuotedValue cs

def maskSecret (line secret : String) : String :=
  match firstQuotedValue secret.data with
  | some v =>
    if v.length > 4 then
      replaceFirst line (String.mk v) (String.mk (v.take 4) ++ "***MASKED***")
    else line
  | none => line

/-- JWT shape: `^eyJ[A-Za-z0-9-_]+\.[A-Za-z0-9-_]+\.[A-Za-z0-9-_]*$`. -/
def jwtShape (text : String) : Bool :=
  match splitOnChar '.' text with
  | [a, b, c] =>
    strStartsWith a "eyJ" && a.length > 3 && a.data.all isB64UrlChar
      && b.length ≥ 1 && b.data.all isB64UrlChar && c.data.all isB64UrlChar
  | _ => false

/-- AWS access-key shape: `^AKIA[0-9A-Z]{16}$`. -/
def awsShape (text : String) : Bool :=
  strStartsWith text "AKIA" && text.length == 20
    && (text.data.drop 4).all (fun c => c.isDigit || c.isUpper)

/-- The per-line loop body of `detectHardcodedSecrets`: try each secret
pattern in order; on a match, skip environment-variable references
(`continue`), otherwise report and `break` (only one finding per line). -/
def scanLineForSecret (patterns : List (List Char → Option (List Char)))
    (line : String) : Option String :=
  match patterns with
  | [] => none
  | p :: rest =>
    match execSearch p line.data with
    | some m =>
      if isEnvironmentVariable line then scanLineForSecret rest line
      else some m
    | none => scanLineForSecret rest line

def lineSecretFinding (now : Nat) (filePath : String) (idx : Nat)
    (line : String) : Option DetectedPattern :=
  (scanLineForSecret SECRET_PATTERNS line).map (fun m =>
    let maskedLine := maskSecret line m
    createPattern id now .hardcoded_secret filePath (idx + 1) (idx + 1)
      "Potential hardcoded secret detected"
      ("Hardcoded secrets will be exposed in version control history. "
        ++ "Use environment variables or a secrets manager instead.")
      maskedLine
      { severity := some .critical
        suggestion := some "Move this secret to an environment variable or secrets manager (e.g., process.env.API_KEY)"
        confidence := some 90 })

def scanLines (now : Nat) (filePath : String) (idx : Nat) :
    List String → List DetectedPattern
  | [] => []
  | line :: rest =>
    (lineSecretFinding now filePath idx line).toList
      ++ scanLines now filePath (idx + 1) rest

/-- The AST half of `detectHardcodedSecrets`: JWT and AWS key shapes in
string literals, independent of the line scan. -/
def astSecretFindings (now : Nat) (sf : SrcFile) (filePath : String) :
    List DetectedPattern :=
  (sf.descendantsOfKind .strLit).flatMap (fun node =>
    match node.1 with
    | lit@(.strLit _ text) =>
      (if jwtShape text then
        [createPattern id now .hardcoded_secret filePath
          lit.startLine lit.endLine
          "Hardcoded JWT token detected"
          "JWT tokens should not be hardcoded. They will be exposed in version control."
          ("\"" ++ strTake text 20 ++ "...[MASKED]\"")
          { severity := some .critical
            suggestion := some "Store tokens securely and retrieve them at runtime"
            confidence := some 95 }]
      else [])
      ++ (if awsShape text then
        [createPattern id now .hardcoded_secret filePath
          lit.startLine lit.endLine
          "Hardcoded AWS access key detected"
          "AWS credentials should never be in source code."
          ("\"" ++ strTake text 8 ++ "...[MASKED]\"")
          { severity := some .critical
            suggestion := some "Use AWS SDK credential providers or environment variables"
            confidence := some 98 }]
      else [])
    | _ => [])

def detectHardcodedSecrets (now : Nat) (sf : SrcFile) (filePath : String) :
    List DetectedPattern :=
  scanLines now filePath 0 sf.lines ++ astSecretFindings now sf filePath

def sqlKeywordsTest (text : String) : Bool :=
  ["SELECT", "INSERT", "UPDATE", "DELETE", "FROM", "WHERE", "JOIN", "AND",
   "OR"].any (fun k => containsWordCI text k)

def detectSqlConcatenation (now : Nat) (sf : SrcFile) (filePath : String) :
    List DetectedPattern :=
  ((sf.descendantsOfKind .templateExpr).filterMap (fun node =>
    match node.1 with
    | t@(.templateExpr _ _ spans) =>
      let text := t.getText
      if sqlKeywordsTest text then
        if spans.length > 0 then
          some (createPattern id now .sql_concatenation filePath
            t.startLine t.endLine
            "SQL query with string interpolation - potential SQL injection"
            ("Building SQL queries with string interpolation can lead to SQL injection vulnerabilities. "
              ++ "Use parameterized queries instead.")
            (truncateCode text 150)
            { severity := some .critical
              suggestion := some "Use parameterized queries or an ORM with proper escaping"
              confidence := some 85 })
        else none
      else none
    | _ => none))
  ++ ((sf.descendantsOfKind .binaryExpr).filterMap (fun node =>
    match node.1 with
    | e@(.binaryExpr _ op _ _) =>
      if op ≠ .plus then none
      else
        let text := e.getText
        if sqlKeywordsTest text then
          let hasVariable := (e.descendantsOfKind .ident).length > 0
            || (e.descendantsOfKind .propAccess).length > 0
          if hasVariable then
            some (createPattern id now .sql_concatenation filePath
              e.startLine e.endLine
              "SQL query built with string concatenation - potential SQL injection"
              "Building SQL queries with string concatenation can lead to SQL injection vulnerabilities."
              (truncateCode text 150)
              { severity := some .critical
                suggestion := some "Use parameterized queries or an ORM"
                confidence := some 80 })
          else none
        else none
    | _ => none))

def detectUnsafeEval (now : Nat) (sf : SrcFile) (filePath : String) :
    List DetectedPattern :=
  ((sf.descendantsOfKind .callExpr).flatMap (fun node =>
    match node.1 with
    | c@(.callExpr _ callee args) =>
      let funcName := callee.getText
      (if funcName == "eval" then
        [createPattern id now .unsafe_eval filePath c.startLine c.endLine
          "Use of eval() is a security risk"
          ("eval() can execute arbitrary code and is a common source of security vulnerabilities. "
            ++ "It also prevents JavaScript engine optimizations.")
          c.getText
          { severity := some .critical
            suggestion := some "Use JSON.parse() for JSON data, or restructure code to avoid dynamic evaluation"
            confidence := some 95 }]
      else [])
      ++ (if funcName == "Function" then
        [createPattern id now .unsafe_eval filePath c.startLine c.endLine
          "Use of Function constructor is similar to eval()"
          "The Function constructor creates a function from a string, which has similar security risks to eval()."
          c.getText
          { severity := some .critical
            suggestion := some "Use regular function declarations or arrow functions"
            confidence := some 90 }]
      else [])
      ++ (if funcName == "setTimeout" || funcName == "setInterval" then
        if (match args with
            | a :: _ => a.kind == Kind.strLit
            | [] => false) then
          [createPattern id now .unsafe_eval filePath c.startLine c.endLine
            (funcName ++ " with string argument is similar to eval()")
            "Passing a string to setTimeout/setInterval causes it to be evaluated, which is a security risk."
            c.getText
            { severity := some .warning
              suggestion := some "Pass a function reference instead of a string"
              confidence := some 90 }]
        else []
      else [])
    | _ => []))
  ++ ((sf.descendantsOfKind .newExpr).filterMap (fun node =>
    match node.1 with
    | e@(.newExpr _ callee _) =>
      if callee.getText == "Function" then
        some (createPattern id now .unsafe_eval filePath e.startLine e.endLine
          "Use of new Function() is similar to eval()"
          "The Function constructor creates a function from a string, which has similar security risks to eval()."
          e.getText
          { severity := some .critical
            suggestion := some "Use regular function declarations or arrow functions"
            confidence := some 90 })
      else none
    | _ => none))

def securityKeywordsTest (text : String) : Bool :=
  ["token", "secret", "key", "password", "auth", "session", "csrf", "nonce",
   "salt", "hash", "id", "uuid"].any (fun k => containsWordCI text k)

def detectInsecureRandom (now : Nat) (sf : SrcFile) (filePath : String) :
    List DetectedPattern :=
  (sf.descendantsOfKind .callExpr).filterMap (fun node =>
    match node with
    | (c@(.callExpr _ callee _), anc) =>
      if callee.getText == "Math.random" then
        let parent := anc.head?
        let grandparent := (anc.drop 1).head?
        let context :=
          match grandparent with
          | some g => g.getText
          | none =>
            match parent with
            | some p => p.getText
            | none => ""
        if securityKeywordsTest context then
          some (createPattern id now .insecure_random filePath
            c.startLine c.endLine
            "Math.random() used in potentially security-sensitive context"
            ("Math.random() is not cryptographically secure. "
              ++ "For security purposes, use crypto.randomBytes() or crypto.getRandomValues().")
            (truncateCode context 100)
            { severity := some .warning
              suggestion := some "Use crypto.randomUUID() or crypto.randomBytes() for security-sensitive operations"
              confidence := some 75 })
        else none
      else none
    | _ => none)

/-- `SecurityDetector.analyze(content, filePath)`: files matching the
test/config naming conventions are skipped entirely (the early return
precedes all four checks). -/
def analyze (now : Nat) (sf : SrcFile) (filePath : String) :
    List DetectedPattern :=
  if shouldSkipFile filePath then []
  else
    detectHardcodedSecrets now sf filePath
      ++ detectSqlConcatenation now sf filePath
      ++ detectUnsafeEval now sf filePath
      ++ detectInsecureRandom now sf filePath

end SecurityDetector

/-! ## CodeQualityDetector (packages/core/src/detectors/codeQuality.ts) -/

def openBraceChar : Char := Char.ofNat 123

def closeBraceChar : Char := Char.ofNat 125

/-- Does `m` hold at some start position (regex search without anchor)? -/
def searchBool (m : List Char → Bool) : List Char → Bool
  | [] => m []
  | c :: cs => m (c :: cs) || searchBool m cs

namespace CodeQualityDetector

def id : String := "code_quality"

def patternTypes : List PatternType :=
  [.magic_number, .todo_without_context, .commented_out_code,
   .overly_complex_function, .placeholder_implementation]

def languages : List SupportedLanguage := [.typescript, .javascript]

/-- First ancestor of kind `k` together with the chain above it. -/
def findFirstWithRest : List Ts → Kind → Option (Ts × List Ts)
  | [], _ => none
  | x :: xs, k => if x.kind == k then some (x, xs) else findFirstWithRest xs k

def acceptableNumbers : List Int := [0, 1, 2, -1, 100, 1000, 60, 24, 365]

/-- `isMagic`: the source computes
`(value > 2 && value < 100 && !Number.isInteger(Math.log10(value))) ||
(value >= 100 && value !== 100 && value !== 1000 && value !== 10000)`;
for integer literal values in (2,100) the only integral log10 is `10`. -/
def isMagicValue (value : Int) : Bool :=
  (value > 2 && value < 100 && value ≠ 10)
    || (value ≥ 100 && value ≠ 100 && value ≠ 1000 && value ≠ 10000)

def detectMagicNumbers (now : Nat) (sf : SrcFile) (filePath : String) :
    List DetectedPattern :=
  (sf.descendantsOfKind .numLit).filterMap (fun node =>
    match node with
    | (lit@(.numLit _ value), anc) =>
      if acceptableNumbers.contains value then none
      else
        let parent := anc.head?
        -- Skip array indices
        if (parent.map Ts.kind) == some Kind.elemAccess then none
        else
          -- Skip likely-named const declarations
          let constSkip :=
            match findFirstWithRest anc .varDecl with
            | some (vd, rest) =>
              match firstAncestorByKind rest .varStmt with
              | some (.varStmt _ .constKw _) =>
                let name := match vd with
                  | .varDecl _ n _ => n
                  | _ => ""
                name.length > 3 || name.data.any (fun c => c.isUpper || c = '_')
              | _ => false
            | none => false
          if constSkip then none
          else if (firstAncestorByKind anc .caseClause).isSome then none
          else if (parent.map Ts.kind) == some Kind.propAssign then none
          else if isMagicValue value then
            some (createPattern id now .magic_number filePath
              lit.startLine lit.endLine
              ("Magic number " ++ toString value ++ " without explanation")
              ("Magic numbers make code harder to understand and maintain. "
                ++ "Consider extracting to a named constant that explains its purpose.")
              ((parent.map Ts.getText).getD lit.getText)
              { severity := some .info
                suggestion := some ("const DESCRIPTIVE_NAME = " ++ toString value
                  ++ "; // Add explanation here")
                confidence := some 60 })
          else none
    | _ => none)

/-- Leftmost match of `/\b(TODO|FIXME|XXX|HACK|BUG)\b:?\s*(.*)/i`, returning
(`match[1]`, `match[2]`). -/
def todoScan (prev : Option Char) : List Char → Option (String × String)
  | [] => none
  | c :: cs =>
    let here := c :: cs
    let tryMarker := fun (mk : String) =>
      let n := mk.length
      if (here.take n).map Char.toLower == mk.data
          && (match prev with
              | some p => !isWordChar p
              | none => true)
          && (match here.drop n with
              | [] => true
              | d :: _ => !isWordChar d) then
        let after := here.drop n
        let after2 := match after with
          | ':' :: r => r
          | r => r
        let (_, rest) := after2.span isWsChar
        some (String.mk (here.take n), String.mk rest)
      else none
    match ["todo", "fixme", "xxx", "hack", "bug"].firstM tryMarker with
    | some r => some r
    | none => todoScan (some c) cs

/-- Full match of
`/^\s*(fix|do|implement|add|remove|update|change|handle|check)\s*(this|it|later)?\s*$/i`. -/
def vagueImperativeTest (s : String) : Bool :=
  let cs := s.data.map Char.toLower
  let (_, r1) := cs.span isWsChar
  ["fix", "do", "implement", "add", "remove", "update", "change", "handle",
   "check"].any (fun verb =>
    if verb.data.isPrefixOf r1 then
      let r2 := r1.drop verb.length
      let (_, r3) := r2.span isWsChar
      r3.isEmpty
        || ["this", "it", "later"].any (fun w =>
            w.data.isPrefixOf r3
              && ((r3.drop w.length).span isWsChar).2.isEmpty)
    else false)

def todoLineFinding (now : Nat) (filePath : String) (idx : Nat)
    (line : String) : Option DetectedPattern :=
  match todoScan none line.data with
  | none => none
  | some (m1, m2) =>
    let todoType := asciiUpper m1
    let context := strTrim m2
    let hasContext := context ≠ "" && context.length > 10
      && !vagueImperativeTest context
    if !hasContext then
      some (createPattern id now .todo_without_context filePath
        (idx + 1) (idx + 1)
        (todoType ++ " comment lacks sufficient context")
        ("TODO comments should explain what needs to be done and why. "
          ++ "Include enough detail that you (or someone else) can act on it later.")
        (strTrim line)
        { severity := some .info
          suggestion := some (todoType
            ++ ": [What needs to be done] - [Why] - [Any relevant context or links]")
          confidence := some 70 })
    else none

def todoScanLines (now : Nat) (filePath : String) (idx : Nat) :
    List String → List DetectedPattern
  | [] => []
  | line :: rest =>
    (todoLineFinding now filePath idx line).toList
      ++ todoScanLines now filePath (idx + 1) rest

def detectTodoWithoutContext (now : Nat) (sf : SrcFile) (filePath : String) :
    List DetectedPattern :=
  todoScanLines now filePath 0 sf.lines

/-- One of the `codePatterns` shapes: a comment line that looks like code. -/
def lineIsCommentedCode (line : String) : Bool :=
  let cs := line.data
  let (_, r1) := cs.span isWsChar
  match matchLit "//" r1 with
  | none => false
  | some (_, r2) =>
    let (_, r) := r2.span isWsChar
    -- keyword followed by whitespace
    (["const", "let", "var", "function", "class", "if", "for", "while",
      "return", "import", "export"].any (fun kw =>
      kw.data.isPrefixOf r
        && (match r.drop kw.length with
            | d :: _ => isWsChar d
            | [] => false)))
    -- identifier then optional spaces then one of = ( [ brace
    || (match r with
        | c :: cs2 =>
          if c.isAlpha || c = '_' || c = '$' then
            let (_, r3) := cs2.span (fun d => d.isAlphanum || d = '_' || d = '$')
            let (_, r4) := r3.span isWsChar
            match r4 with
            | d :: _ => d = '=' || d = '(' || d = '[' || d = openBraceChar
            | [] => false
          else false
        | [] => false)
    -- lone closing bracket, optional semicolon, end of line
    || (match r with
        | c :: rest =>
          (c = ')' || c = closeBraceChar || c = ']')
            && (rest.isEmpty || rest == [';'])
        | [] => false)
    -- method-call-looking shape: .name(
    || (match r with
        | '.' :: cs2 =>
          let (letters, r3) := cs2.span Char.isAlpha
          letters.length ≥ 1
            && (match r3 with
                | '(' :: _ => true
                | _ => false)
        | _ => false)
    -- await/async followed by whitespace
    || (["await", "async"].any (fun kw =>
        kw.data.isPrefixOf r
          && (match r.drop kw.length with
              | d :: _ => isWsChar d
              | [] => false)))

/-- `flushCommentedCode(endLine)`: a run of at least three consecutive
commented-code lines becomes one finding. -/
def flushCommented (now : Nat) (filePath : String) (consecutive startL : Nat)
    (commented : List String) (endLine : Nat) : List DetectedPattern :=
  if consecutive ≥ 3 then
    [createPattern id now .commented_out_code filePath startL endLine
      (toString consecutive ++ " lines of commented-out code")
      ("Large blocks of commented-out code clutter the codebase and create confusion. "
        ++ "If the code is no longer needed, delete it - it\x27s preserved in version control.")
      (String.intercalate "\n" (commented.take 3)
        ++ (if commented.length > 3 then "\n// ..." else ""))
      { severity := some .info
        suggestion := some "Delete commented-out code - use version control to recover it if needed"
        confidence := some 65 }]
  else []

def ccScan (now : Nat) (filePath : String) (idx consecutive startL : Nat)
    (commented : List String) : List String → List DetectedPattern
  | [] => flushCommented now filePath consecutive startL commented idx
  | line :: rest =>
    if lineIsCommentedCode line then
      let startL2 := if consecutive == 0 then idx + 1 else startL
      ccScan now filePath (idx + 1) (consecutive + 1) startL2
        (commented ++ [strTrim line]) rest
    else
      flushCommented now filePath consecutive startL commented idx
        ++ ccScan now filePath (idx + 1) 0 0 [] rest

def detectCommentedOutCode (now : Nat) (sf : SrcFile) (filePath : String) :
    List DetectedPattern :=
  ccScan now filePath 0 0 0 [] sf.lines

def getFunctionName (func : Ts) (anc : List Ts) : Option String :=
  match func with
  | .funcDecl _ _ n _ _ => n
  | .methodDecl _ _ n _ _ => some n
  | _ =>
    match firstAncestorByKind anc .varDecl with
    | some (.varDecl _ n _) => some n
    | _ => none

/-- Decision-point contribution of one descendant node
(`calculateCyclomaticComplexity`'s `countNode`). -/
def branchIncrement : Ts → Nat
  | .ifStmt .. => 1
  | .condExpr .. => 1
  | .forStmt .. => 1
  | .forInStmt .. => 1
  | .forOfStmt .. => 1
  | .whileStmt .. => 1
  | .doStmt .. => 1
  | .caseClause .. => 1
  | .catchClause .. => 1
  | .binaryExpr _ op _ _ => if op = .ampAmp || op = .barBar then 1 else 0
  | _ => 0

/-- `calculateCyclomaticComplexity`: 1 plus the decision points over the
full descendant set of the node. -/
def calculateCyclomaticComplexity (node : Ts) : Nat :=
  1 + (node.descendants.map branchIncrement).sum

def complexityThreshold : Nat := 10

/-- Function-like nodes in source order: all function declarations, then
all arrow functions, then all method declarations. -/
def functionNodes (sf : SrcFile) : List (Ts × List Ts) :=
  sf.descendantsOfKind .funcDecl
    ++ sf.descendantsOfKind .arrowFunction
    ++ sf.descendantsOfKind .methodDecl

/-- The finding `detectComplexFunctions` produces for one function node,
when its complexity exceeds the threshold. -/
def complexFinding (now : Nat) (filePath : String) (node : Ts × List Ts) :
    Option DetectedPattern :=
  let complexity := calculateCyclomaticComplexity node.1
  if complexity > complexityThreshold then
    let name := getFunctionName node.1 node.2
    some (createPattern id now .overly_complex_function filePath
      node.1.startLine node.1.endLine
      ("Function"
        ++ (match name with
            | some nm => " \"" ++ nm ++ "\""
            | none => "")
        ++ " has cyclomatic complexity of " ++ toString complexity)
      ("High complexity (>" ++ toString complexityThreshold
        ++ ") makes code harder to understand, test, and maintain. "
        ++ "Consider breaking it into smaller functions.")
      (truncateCode node.1.getText 200)
      { severity := some (if complexity > 20 then .critical else .warning)
        suggestion := some "Extract logical branches into separate functions with descriptive names"
        confidence := some 85 })
  else none

def detectComplexFunctions (now : Nat) (sf : SrcFile) (filePath : String) :
    List DetectedPattern :=
  (functionNodes sf).filterMap (complexFinding now filePath)

/-- Search for `/throw\s+new\s+Error\s*\(\s*['"]not\s*implemented/i`. -/
def throwNotImplTest (s : String) : Bool :=
  let m := fun (cs : List Char) =>
    match matchLit "throw" cs with
    | none => false
    | some (_, r1) =>
      match matchWs1 r1 with
      | none => false
      | some (_, r2) =>
        match matchLit "new" r2 with
        | none => false
        | some (_, r3) =>
          match matchWs1 r3 with
          | none => false
          | some (_, r4) =>
            match matchLit "error" r4 with
            | none => false
            | some (_, r5) =>
              let r6 := (r5.span isWsChar).2
              match r6 with
              | '(' :: r7 =>
                let r8 := (r7.span isWsChar).2
                match r8 with
                | q :: r9 =>
                  isQuoteChar q
                    && (match matchLit "not" r9 with
                        | none => false
                        | some (_, r10) =>
                          "implemented".data.isPrefixOf
                            ((r10.span isWsChar).2))
                | [] => false
              | _ => false
  searchBool m (s.data.map Char.toLower)

/-- Search for `/\/\/\s*TODO\s*:?\s*(implement|add|fix|complete)/i`. -/
def todoImplementTest (s : String) : Bool :=
  let m := fun (cs : List Char) =>
    match matchLit "//" cs with
    | none => false
    | some (_, r1) =>
      let r2 := (r1.span isWsChar).2
      match matchLit "todo" r2 with
      | none => false
      | some (_, r3) =>
        let r4 := (r3.span isWsChar).2
        let r5 := match r4 with
          | ':' :: r => r
          | r => r
        let r6 := (r5.span isWsChar).2
        ["implement", "add", "fix", "complete"].any
          (fun w => w.data.isPrefixOf r6)
  searchBool m (s.data.map Char.toLower)

/-- Findings `detectPlaceholderImplementations` produces for one function
node. -/
def placeholderFindings (now : Nat) (filePath : String)
    (node : Ts × List Ts) : List DetectedPattern :=
  match node.1.fnBody with
  | none => []
  | some body =>
    let bodyText := body.getText
    if throwNotImplTest bodyText then
      -- throw not-implemented: report and skip the other checks
      [createPattern id now .placeholder_implementation filePath
        node.1.startLine node.1.endLine
        "Function throws \"not implemented\" - placeholder code"
        ("This function has a placeholder implementation that will fail at runtime. "
          ++ "Complete the implementation or remove it if it\x27s not needed.")
        (truncateCode node.1.getText 200)
        { severity := some .critical
          suggestion := some "Implement the function or remove it"
          confidence := some 95 }]
    else
      (if todoImplementTest bodyText then
        [createPattern id now .placeholder_implementation filePath
          node.1.startLine node.1.endLine
          "Function has TODO indicating incomplete implementation"
          ("This function contains a TODO suggesting it needs more work. "
            ++ "Review and complete before committing.")
          (truncateCode node.1.getText 200)
          { severity := some .warning
            suggestion := some "Complete the TODO or add a detailed explanation of what remains"
            confidence := some 75 }]
      else [])
      ++ (match body with
          | .block _ stmts =>
            let hasCode := stmts.any (fun s =>
              let t := strTrim (Ts.getText s)
              !(strStartsWith t "//") && !(strStartsWith t "/*"))
            if !hasCode && stmts.length == 0 then
              -- Skip empty arrow functions that are likely intentional noops
              if node.1.kind == Kind.arrowFunction
                  && ((node.2.head?.map Ts.kind) == some Kind.callExpr
                      || (node.2.head?.map Ts.kind) == some Kind.propAssign)
              then []
              else
                let name := getFunctionName node.1 node.2
                [createPattern id now .placeholder_implementation filePath
                  node.1.startLine node.1.endLine
                  ("Function"
                    ++ (match name with
                        | some nm => " \"" ++ nm ++ "\""
                        | none => "")
                    ++ " has empty body")
                  "This function does nothing. Either implement it or remove it."
                  node.1.getText
                  { severity := some .warning
                    suggestion := some "Add implementation or remove the function"
                    confidence := some 80 }]
            else []
          | _ => [])

def detectPlaceholderImplementations (now : Nat) (sf : SrcFile)
    (filePath : String) : List DetectedPattern :=
  (functionNodes sf).flatMap (placeholderFindings now filePath)

/-- `CodeQualityDetector.analyze(content, filePath)`. -/
def analyze (now : Nat) (sf : SrcFile) (filePath : String) :
    List DetectedPattern :=
  detectMagicNumbers now sf filePath
    ++ detectTodoWithoutContext now sf filePath
    ++ detectCommentedOutCode now sf filePath
    ++ detectComplexFunctions now sf filePath
    ++ detectPlaceholderImplementations now sf filePath

end CodeQualityDetector

/-! ## Detector contract and Analyzer (packages/core/src/analyzer.ts)

A detector's `analyze` may fail (ts-morph can throw on malformed input);
fallible behaviour is modelled by `Except`.  The orchestrator catches any
failure and treats it as zero patterns. -/

structure Detector where
  id : String
  patterns : List PatternType
  languages : List SupportedLanguage
  analyze : Nat → SrcFile → String → Option DetectorSettings →
    Except String (List DetectedPattern)

/-- The built-in detectors never throw in this model (parsing is done by the
caller); their `analyze` always succeeds.  `ErrorHandlingDetector`,
`SecurityDetector` and `CodeQualityDetector` take only `(content, filePath)`
in the source, so the settings argument passed by the orchestrator is
ignored (extra JS arguments are dropped silently). -/
def namingDetector : Detector :=
  { id := NamingPatternDetector.id
    patterns := NamingPatternDetector.patternTypes
    languages := NamingPatternDetector.languages
    analyze := fun now sf path settings =>
      .ok (NamingPatternDetector.analyze now sf path settings) }

def errorHandlingDetector : Detector :=
  { id := ErrorHandlingDetector.id
    patterns := ErrorHandlingDetector.patternTypes
    languages := ErrorHandlingDetector.languages
    analyze := fun now sf path _settings =>
      .ok (ErrorHandlingDetector.analyze now sf path) }

def securityDetector : Detector :=
  { id := SecurityDetector.id
    patterns := SecurityDetector.patternTypes
    languages := SecurityDetector.languages
    analyze := fun now sf path _settings =>
      .ok (SecurityDetector.analyze now sf path) }

def codeQualityDetector : Detector :=
  { id := CodeQualityDetector.id
    patterns := CodeQualityDetector.patternTypes
    languages := CodeQualityDetector.languages
    analyze := fun now sf path _settings =>
      .ok (CodeQualityDetector.analyze now sf path) }

/-- `initializeDetectors`: the four built-in detectors. -/
def defaultDetectors : List Detector :=
  [namingDetector, errorHandlingDetector, securityDetector,
   codeQualityDetector]

/-- `ALL_PATTERN_TYPES = Object.keys(PATTERN_METADATA)`. -/
def ALL_PATTERN_TYPES : List PatternType :=
  [.generic_variable_name, .inconsistent_naming, .empty_catch_block,
   .swallowed_error, .missing_error_boundary, .generic_error_message,
   .try_without_catch, .hardcoded_secret, .sql_concatenation, .unsafe_eval,
   .insecure_random, .missing_input_validation, .copy_paste_pattern,
   .magic_number, .todo_without_context, .commented_out_code,
   .overly_complex_function, .placeholder_implementation,
   .incomplete_edge_case, .mock_data_in_production,
   .framework_version_mismatch, .unnecessary_abstraction, .context_mismatch]

/-- The configuration fields `analyzeFile` reads.  (Checkpoint/UI fields of
`ExtensionConfig` never influence analysis and are omitted.)
`severityOverrides` models the partial record as a partial function. -/
structure ExtensionConfig where
  enabledPatterns : List PatternType
  severityOverrides : PatternType → Option Severity
  excludePaths : List String
  excludeFiles : List String
  minSeverityForCheckpoint : Severity
  detectorSettings : Option DetectorSettings

/-- `DEFAULT_CONFIG` (packages/shared/src/constants/index.ts): all patterns
enabled, no overrides, checkpoint threshold `warning`, no detector
settings. -/
def DEFAULT_CONFIG : ExtensionConfig :=
  { enabledPatterns := ALL_PATTERN_TYPES
    severityOverrides := fun _ => none
    excludePaths := ["**/node_modules/**", "**/dist/**", "**/build/**",
      "**/.git/**"]
    excludeFiles := ["*.min.js", "*.bundle.js"]
    minSeverityForCheckpoint := .warning
    detectorSettings := none }

/-- `Partial<ExtensionConfig>` for the spread-merge
`{ ...this.config, ...options.config }`. -/
structure PartialConfig where
  enabledPatterns : Option (List PatternType) := none
  severityOverrides : Option (PatternType → Option Severity) := none
  excludePaths : Option (List String) := none
  excludeFiles : Option (List String) := none
  minSeverityForCheckpoint : Option Severity := none
  detectorSettings : Option (Option DetectorSettings) := none

def mergeConfig (base : ExtensionConfig) (o : PartialConfig) :
    ExtensionConfig :=
  { enabledPatterns := o.enabledPatterns.getD base.enabledPatterns
    severityOverrides := o.severityOverrides.getD base.severityOverrides
    excludePaths := o.excludePaths.getD base.excludePaths
    excludeFiles := o.excludeFiles.getD base.excludeFiles
    minSeverityForCheckpoint :=
      o.minSeverityForCheckpoint.getD base.minSeverityForCheckpoint
    detectorSettings := o.detectorSettings.getD base.detectorSettings }

structure AnalyzerOptions where
  config : PartialConfig := {}
  patternTypes : Option (List PatternType) := none
  minSeverity : Option Severity := none

structure AnalysisResult where
  file : String
  language : Option SupportedLanguage
  patterns : List DetectedPattern
  analyzedAt : Nat
deriving DecidableEq, Repr

namespace Analyzer

def shouldExcludeFile (filePath : String) (config : ExtensionConfig) :
    Bool :=
  if matchesGlob filePath config.excludePaths then true
  else
    let fileName := (splitOnChar '/' filePath).getLastD ""
    config.excludeFiles.any (fun pat => simpleWildcardMatch pat fileName)

/-- The applicability test of one detector: supports the file language (a
null language excludes nothing) and has at least one pattern passing both
the call's `patternTypes` filter and the config's `enabledPatterns`. -/
def detectorApplicable (language : Option SupportedLanguage)
    (patternTypes : Option (List PatternType)) (config : ExtensionConfig)
    (detector : Detector) : Bool :=
  if (match language with
      | some l => !detector.languages.contains l
      | none => false) then false
  else
    detector.patterns.any (fun p =>
      !(match patternTypes with
        | some ts => !ts.contains p
        | none => false)
      && config.enabledPatterns.contains p)

def getApplicableDetectors (detectors : List Detector)
    (language : Option SupportedLanguage)
    (patternTypes : Option (List PatternType))
    (config : ExtensionConfig) : List Detector :=
  detectors.filter (detectorApplicable language patternTypes config)

/-- `.catch(() => [])`: a failing detector yields zero patterns. -/
def runDetector (d : Detector) (now : Nat) (content : SrcFile)
    (filePath : String) (settings : Option DetectorSettings) :
    List DetectedPattern :=
  match d.analyze now content filePath settings with
  | .ok ps => ps
  | .error _ => []

/-- The flattened pre-filter pattern list of one `analyzeFile` call. -/
def rawDetectorPatterns (detectors : List Detector)
    (config : ExtensionConfig) (now : Nat) (content : SrcFile)
    (filePath : String) (options : AnalyzerOptions) : List DetectedPattern :=
  let mergedConfig := mergeConfig config options.config
  ((getApplicableDetectors detectors (detectLanguage filePath)
      options.patternTypes mergedConfig).map
    (fun d => runDetector d now content filePath
      mergedConfig.detectorSettings)).flatten

def applyOverride (overrides : PatternType → Option Severity)
    (p : DetectedPattern) : DetectedPattern :=
  match overrides p.type with
  | some o => { p with severity := o }
  | none => p

/-- Strictly-before relation of the output sort: severity descending,
then start line ascending. -/
def patBefore (a b : DetectedPattern) : Bool :=
  severityOrder b.severity < severityOrder a.severity
    || (severityOrder b.severity == severityOrder a.severity
        && a.startLine < b.startLine)

def insertPat (p : DetectedPattern) :
    List DetectedPattern → List DetectedPattern
  | [] => [p]
  | q :: qs => if patBefore q p then q :: insertPat p qs else p :: q :: qs

/-- `patterns.sort(...)`: JS `Array.prototype.sort` is stable, modelled by a
stable insertion sort under `patBefore`. -/
def sortPatterns : List DetectedPattern → List DetectedPattern
  | [] => []
  | p :: ps => insertPat p (sortPatterns ps)

/-- `Analyzer.analyzeFile(content, filePath, options)` over a detector
list. -/
def analyzeFile (detectors : List Detector) (config : ExtensionConfig)
    (now : Nat) (content : SrcFile) (filePath : String)
    (options : AnalyzerOptions) : AnalysisResult :=
  let mergedConfig := mergeConfig config options.config
  let language := detectLanguage filePath
  if shouldExcludeFile filePath mergedConfig then
    { file := filePath, language := language, patterns := []
      analyzedAt := now }
  else
    let patterns0 :=
      rawDetectorPatterns detectors config now content filePath options
    let minSeverity :=
      options.minSeverity.getD mergedConfig.minSeverityForCheckpoint
    let patterns1 := patterns0.filter
      (fun p => meetsSeverityThreshold p.severity minSeverity)
    let patterns2 := patterns1.map
      (applyOverride mergedConfig.severityOverrides)
    { file := filePath, language := language
      patterns := sortPatterns patterns2, analyzedAt := now }

end Analyzer

/-! ## Shared helper images of the pipeline on `PatternCore`
(used to state and prove determinism) and concrete example inputs -/

def coreOverride (overrides : PatternType → Option Severity)
    (c : PatternCore) : PatternCore :=
  match overrides c.type with
  | some o => { c with severity := o }
  | none => c

def coreBefore (a b : PatternCore) : Bool :=
  severityOrder b.severity < severityOrder a.severity
    || (severityOrder b.severity == severityOrder a.severity
        && a.startLine < b.startLine)

def coreInsert (p : PatternCore) : List PatternCore → List PatternCore
  | [] => [p]
  | q :: qs => if coreBefore q p then q :: coreInsert p qs else p :: q :: qs

def coreSort : List PatternCore → List PatternCore
  | [] => []
  | p :: ps => coreInsert p (coreSort ps)

/-- The string literals of a file: (position, literal text) pairs, in
traversal order. -/
def strLitData (sf : SrcFile) : List (Pos × String) :=
  (sf.descendantsOfKind .strLit).filterMap (fun n =>
    match n.1 with
    | .strLit p s => some (p, s)
    | _ => none)

/-! Concrete example inputs used by the claim theorems. -/

def pos11 : Pos := ⟨1, 1⟩

/-- Parse of `const data = foo();`. -/
def sampleGenericVar : SrcFile :=
  { lines := ["const data = foo();"]
    statements := [Ts.varStmt pos11 .constKw
      [Ts.varDecl pos11 "data"
        (some (Ts.callExpr pos11 (Ts.ident pos11 "foo") []))]] }

/-- Parse of `for (let i = 0; i < n; i++) {}`. -/
def sampleForLoop : SrcFile :=
  { lines := ["for (let i = 0; i < n; i++) \x7b\x7d"]
    statements := [Ts.forStmt pos11
      (some (Ts.varStmt pos11 .letKw
        [Ts.varDecl pos11 "i" (some (Ts.numLit pos11 0))]))
      (some (Ts.binaryExpr pos11 (.other "<") (Ts.ident pos11 "i")
        (Ts.ident pos11 "n")))
      (some (Ts.postUnary pos11 (Ts.ident pos11 "i") "++"))
      (Ts.block pos11 [])] }

/-- Parse of `eval(userInput);`. -/
def sampleEvalFile : SrcFile :=
  { lines := ["eval(userInput);"]
    statements := [Ts.exprStmt pos11
      (Ts.callExpr pos11 (Ts.ident pos11 "eval")
        [Ts.ident pos11 "userInput"])] }

/-- A function body of four nested if/else levels plus a for loop containing
a switch with 4 case clauses: 4 + 1 + 4 = 9 decision points, cyclomatic
complexity exactly 10. -/
def exampleComplexFun : Ts :=
  Ts.funcDecl pos11 false (some "f") []
    (some (Ts.block pos11
      [Ts.ifStmt pos11 (Ts.ident pos11 "a")
        (Ts.block pos11 [Ts.ifStmt pos11 (Ts.ident pos11 "b")
          (Ts.block pos11 [Ts.ifStmt pos11 (Ts.ident pos11 "c")
            (Ts.block pos11 [Ts.ifStmt pos11 (Ts.ident pos11 "d")
              (Ts.block pos11 [Ts.retStmt pos11 (some (Ts.numLit pos11 1))])
              (some (Ts.block pos11
                [Ts.retStmt pos11 (some (Ts.numLit pos11 2))]))])
            (some (Ts.block pos11
              [Ts.retStmt pos11 (some (Ts.numLit pos11 1))]))])
          (some (Ts.block pos11
            [Ts.retStmt pos11 (some (Ts.numLit pos11 1))]))])
        (some (Ts.block pos11
          [Ts.retStmt pos11 (some (Ts.numLit pos11 1))])),
       Ts.forStmt pos11 none none none
        (Ts.block pos11
          [Ts.switchStmt pos11 (Ts.ident pos11 "s")
            [Ts.caseClause pos11 (Ts.numLit pos11 1)
              [Ts.retStmt pos11 (some (Ts.numLit pos11 1))],
             Ts.caseClause pos11 (Ts.numLit pos11 2)
              [Ts.retStmt pos11 (some (Ts.numLit pos11 1))],
             Ts.caseClause pos11 (Ts.numLit pos11 0)
              [Ts.retStmt pos11 (some (Ts.numLit pos11 1))],
             Ts.caseClause pos11 (Ts.numLit pos11 2)
              [Ts.retStmt pos11 (some (Ts.numLit pos11 1))]]])]))

def exampleComplexFile : SrcFile :=
  { lines := [""], statements := [exampleComplexFun] }

/-- The same shape with two extra case clauses: complexity 12, above the
threshold. -/
def exampleComplexFun12 : Ts :=
  Ts.funcDecl pos11 false (some "g") []
    (some (Ts.block pos11
      [Ts.ifStmt pos11 (Ts.ident pos11 "a")
        (Ts.block pos11 [Ts.ifStmt pos11 (Ts.ident pos11 "b")
          (Ts.block pos11 [Ts.ifStmt pos11 (Ts.ident pos11 "c")
            (Ts.block pos11 [Ts.ifStmt pos11 (Ts.ident pos11 "d")
              (Ts.block pos11 [Ts.retStmt pos11 (some (Ts.numLit pos11 1))])
              (some (Ts.block pos11
                [Ts.retStmt pos11 (some (Ts.numLit pos11 2))]))])
            (some (Ts.block pos11
              [Ts.retStmt pos11 (some (Ts.numLit pos11 1))]))])
          (some (Ts.block pos11
            [Ts.retStmt pos11 (some (Ts.numLit pos11 1))]))])
        (some (Ts.block pos11
          [Ts.retStmt pos11 (some (Ts.numLit pos11 1))])),
       Ts.forStmt pos11 none none none
        (Ts.block pos11
          [Ts.switchStmt pos11 (Ts.ident pos11 "s")
            [Ts.caseClause pos11 (Ts.numLit pos11 1)
              [Ts.retStmt pos11 (some (Ts.numLit pos11 1))],
             Ts.caseClause pos11 (Ts.numLit pos11 2)
              [Ts.retStmt pos11 (some (Ts.numLit pos11 1))],
             Ts.caseClause pos11 (Ts.numLit pos11 0)
              [Ts.retStmt pos11 (some (Ts.numLit pos11 1))],
             Ts.caseClause pos11 (Ts.numLit pos11 2)
              [Ts.retStmt pos11 (some (Ts.numLit pos11 1))],
             Ts.caseClause pos11 (Ts.numLit pos11 5)
              [Ts.retStmt pos11 (some (Ts.numLit pos11 1))],
             Ts.caseClause pos11 (Ts.numLit pos11 6)
              [Ts.retStmt pos11 (some (Ts.numLit pos11 1))]]])]))

/-- Parse of `throw new Error('xyzzy failure');` — the phrase is not in the
built-in generic-error-message list. -/
def xyzzyThrowFile : SrcFile :=
  { lines := ["throw new Error(\x27xyzzy failure\x27);"]
    statements := [Ts.throwStmt pos11
      (Ts.newExpr pos11 (Ts.ident pos11 "Error")
        [Ts.strLit pos11 "xyzzy failure"])] }

/-- Parse of `throw new Error('something went wrong');` — a built-in
generic phrase. -/
def wentWrongThrowFile : SrcFile :=
  { lines := ["throw new Error(\x27something went wrong\x27);"]
    statements := [Ts.throwStmt pos11
      (Ts.newExpr pos11 (Ts.ident pos11 "Error")
        [Ts.strLit pos11 "something went wrong"])] }

/-- User settings that extend every one of the five lists. -/
def extendedSettings : DetectorSettings :=
  { genericVariableNames := ["frobnicate"]
    loopVariableNames := ["q"]
    coordinateVariableNames := ["u"]
    genericErrorMessages := ["xyzzy failure"]
    secretPatterns := ["quux_secret_[0-9]+"] }

def settingsConfig : ExtensionConfig :=
  { DEFAULT_CONFIG with detectorSettings := some extendedSettings }

/-- A detector whose analyze call always throws. -/
def failingDetector : Detector :=
  { id := "boom"
    patterns := [.magic_number]
    languages := [.typescript]
    analyze := fun _ _ _ _ => .error "parse failure" }

/-- A file with one line matching two secret regexes and one JWT-shaped
string literal on line 2. -/
def sampleSecretFile : SrcFile :=
  { lines := ["const password = \"hunter2abc\"; const token = \"zz9999\";"]
    statements := [Ts.varStmt ⟨2, 2⟩ .constKw
      [Ts.varDecl ⟨2, 2⟩ "jwt"
        (some (Ts.strLit ⟨2, 2⟩ "eyJabc.def.ghi"))]] }

/-- A try/finally whose try block contains a call expression, and an empty
finally block. -/
def sampleTryBlock : Ts :=
  Ts.block pos11 [Ts.exprStmt pos11
    (Ts.callExpr pos11 (Ts.ident pos11 "cleanup") [])]

def sampleFinallyBlock : Ts := Ts.block ⟨2, 2⟩ []

/-! ## Determinism infrastructure

The clock flows only into `createPattern`'s `id`/`detectedAt` fields, so
every detector's output is clock-independent up to `erase`.  The lemmas
below push `map erase` through the combinators the detectors use. -/

theorem erase_createPattern (did : String) (n n' : Nat) (ty : PatternType)
    (f : String) (sl el : Nat) (d e c : String) (o : PatternOptions) :
    erase (createPattern did n ty f sl el d e c o)
      = erase (createPattern did n' ty f sl el d e c o) := rfl

theorem map_erase_filterMap {α : Type} (l : List α)
    (f g : α → Option DetectedPattern)
    (h : ∀ a, (f a).map erase = (g a).map erase) :
    (l.filterMap f).map erase = (l.filterMap g).map erase := by
  induction l with
  | nil => rfl
  | cons a l ih =>
    have ha := h a
    rw [List.filterMap_cons, List.filterMap_cons]
    cases hf : f a <;> cases hg : g a <;> rw [hf, hg] at ha <;>
      simp only [Option.map_some', Option.map_none'] at ha
    · exact ih
    · exact absurd ha (by simp)
    · exact absurd ha (by simp)
    · simp [Option.some.inj ha, ih]

theorem map_erase_flatMap {α : Type} (l : List α)
    (f g : α → List DetectedPattern)
    (h : ∀ a, (f a).map erase = (g a).map erase) :
    (l.flatMap f).map erase = (l.flatMap g).map erase := by
  induction l with
  | nil => rfl
  | cons a l ih =>
    simp only [List.flatMap_cons, List.map_append, h a, ih]

theorem map_erase_map {α : Type} (l : List α)
    (f g : α → DetectedPattern)
    (h : ∀ a, erase (f a) = erase (g a)) :
    (l.map f).map erase = (l.map g).map erase := by
  induction l with
  | nil => rfl
  | cons a l ih => simp only [List.map_cons, h a, ih]

theorem navd_erase (sets : NamingPatternDetector.NamingSets) (now now' : Nat)
    (sf : SrcFile) (path : String) :
    (NamingPatternDetector.analyzeVariableDeclarations sets now sf path).map
        erase
      = (NamingPatternDetector.analyzeVariableDeclarations sets now' sf
          path).map erase := by
  unfold NamingPatternDetector.analyzeVariableDeclarations
  apply map_erase_filterMap
  intro a
  (repeat' split) <;> rfl

theorem nafp_erase (sets : NamingPatternDetector.NamingSets) (now now' : Nat)
    (sf : SrcFile) (path : String) :
    (NamingPatternDetector.analyzeFunctionParameters sets now sf path).map
        erase
      = (NamingPatternDetector.analyzeFunctionParameters sets now' sf
          path).map erase := by
  unfold NamingPatternDetector.analyzeFunctionParameters
  apply map_erase_filterMap
  intro a
  (repeat' split) <;> rfl

theorem nanc_erase (now now' : Nat) (sf : SrcFile) (path : String) :
    (NamingPatternDetector.analyzeNamingConsistency now sf path).map erase
      = (NamingPatternDetector.analyzeNamingConsistency now' sf path).map
          erase := by
  unfold NamingPatternDetector.analyzeNamingConsistency
  dsimp only
  split
  · apply map_erase_map
    intro a
    rfl
  · rfl

theorem naming_analyze_erase (now now' : Nat) (sf : SrcFile) (path : String)
    (settings : Option DetectorSettings) :
    (NamingPatternDetector.analyze now sf path settings).map erase
      = (NamingPatternDetector.analyze now' sf path settings).map erase := by
  unfold NamingPatternDetector.analyze
  simp only [List.map_append]
  rw [navd_erase _ now now', nafp_erase _ now now', nanc_erase now now']

theorem ehecb_erase (now now' : Nat) (sf : SrcFile) (path : String) :
    (ErrorHandlingDetector.detectEmptyCatchBlocks now sf path).map erase
      = (ErrorHandlingDetector.detectEmptyCatchBlocks now' sf path).map
          erase := by
  unfold ErrorHandlingDetector.detectEmptyCatchBlocks
  apply map_erase_filterMap
  intro a
  dsimp only
  (repeat' split) <;> rfl

theorem ehse_erase (now now' : Nat) (sf : SrcFile) (path : String) :
    (ErrorHandlingDetector.detectSwallowedErrors now sf path).map erase
      = (ErrorHandlingDetector.detectSwallowedErrors now' sf path).map
          erase := by
  unfold ErrorHandlingDetector.detectSwallowedErrors
  apply map_erase_filterMap
  intro a
  dsimp only
  (repeat' split) <;> rfl

theorem ehtwc_node_erase (now now' : Nat) (path : String) (t : Ts) :
    (ErrorHandlingDetector.tryWithoutCatchFindings now path t).map erase
      = (ErrorHandlingDetector.tryWithoutCatchFindings now' path t).map
          erase := by
  unfold ErrorHandlingDetector.tryWithoutCatchFindings
  dsimp only
  (repeat' split) <;> rfl

theorem ehtwc_erase (now now' : Nat) (sf : SrcFile) (path : String) :
    (ErrorHandlingDetector.detectTryWithoutCatch now sf path).map erase
      = (ErrorHandlingDetector.detectTryWithoutCatch now' sf path).map
          erase := by
  unfold ErrorHandlingDetector.detectTryWithoutCatch
  apply map_erase_flatMap
  intro a
  exact ehtwc_node_erase now now' path a.1

theorem ehmeb_erase (now now' : Nat) (sf : SrcFile) (path : String) :
    (ErrorHandlingDetector.detectMissingErrorBoundaries now sf path).map erase
      = (ErrorHandlingDetector.detectMissingErrorBoundaries now' sf path).map
          erase := by
  unfold ErrorHandlingDetector.detectMissingErrorBoundaries
  apply map_erase_filterMap
  intro a
  dsimp only
  (repeat' split) <;> rfl

theorem ehgem_erase (now now' : Nat) (sf : SrcFile) (path : String) :
    (ErrorHandlingDetector.detectGenericErrorMessages now sf path).map erase
      = (ErrorHandlingDetector.detectGenericErrorMessages now' sf path).map
          erase := by
  unfold ErrorHandlingDetector.detectGenericErrorMessages
  apply map_erase_filterMap
  intro a
  dsimp only
  (repeat' split) <;> rfl

theorem errorHandling_analyze_erase (now now' : Nat) (sf : SrcFile)
    (path : String) :
    (ErrorHandlingDetector.analyze now sf path).map erase
      = (ErrorHandlingDetector.analyze now' sf path).map erase := by
  unfold ErrorHandlingDetector.analyze
  simp only [List.map_append]
  rw [ehecb_erase now now', ehse_erase now now', ehtwc_erase now now',
    ehmeb_erase now now', ehgem_erase now now']

theorem slf_erase (now now' : Nat) (path : String) (idx : Nat)
    (line : String) :
    (SecurityDetector.lineSecretFinding now path idx line).map erase
      = (SecurityDetector.lineSecretFinding now' path idx line).map erase := by
  unfold SecurityDetector.lineSecretFinding
  cases SecurityDetector.scanLineForSecret SECRET_PATTERNS line <;> rfl

theorem scanLines_erase (now now' : Nat) (path : String) :
    ∀ (ls : List String) (idx : Nat),
    (SecurityDetector.scanLines now path idx ls).map erase
      = (SecurityDetector.scanLines now' path idx ls).map erase := by
  intro ls
  induction ls with
  | nil => intro idx; rfl
  | cons line rest ih =>
    intro idx
    unfold SecurityDetector.scanLines
    simp only [List.map_append, ih (idx + 1)]
    congr 1
    cases h : SecurityDetector.lineSecretFinding now path idx line with
    | none =>
      cases h' : SecurityDetector.lineSecretFinding now' path idx line with
      | none => rfl
      | some w =>
        have := slf_erase now now' path idx line
        rw [h, h'] at this
        exact absurd this (by simp)
    | some v =>
      cases h' : SecurityDetector.lineSecretFinding now' path idx line with
      | none =>
        have := slf_erase now now' path idx line
        rw [h, h'] at this
        exact absurd this (by simp)
      | some w =>
        have := slf_erase now now' path idx line
        rw [h, h'] at this
        simp only [Option.map_some'] at this
        simp [Option.toList, Option.some.inj this]

theorem astsf_erase (now now' : Nat) (sf : SrcFile) (path : String) :
    (SecurityDetector.astSecretFindings now sf path).map erase
      = (SecurityDetector.astSecretFindings now' sf path).map erase := by
  unfold SecurityDetector.astSecretFindings
  apply map_erase_flatMap
  intro a
  dsimp only
  (repeat' split) <;> rfl

theorem shs_erase (now now' : Nat) (sf : SrcFile) (path : String) :
    (SecurityDetector.detectHardcodedSecrets now sf path).map erase
      = (SecurityDetector.detectHardcodedSecrets now' sf path).map erase := by
  unfold SecurityDetector.detectHardcodedSecrets
  simp only [List.map_append]
  rw [scanLines_erase now now', astsf_erase now now']

theorem ssql_erase (now now' : Nat) (sf : SrcFile) (path : String) :
    (SecurityDetector.detectSqlConcatenation now sf path).map erase
      = (SecurityDetector.detectSqlConcatenation now' sf path).map erase := by
  unfold SecurityDetector.detectSqlConcatenation
  simp only [List.map_append]
  congr 1
  · apply map_erase_filterMap
    intro a
    dsimp only
    (repeat' split) <;> rfl
  · apply map_erase_filterMap
    intro a
    dsimp only
    (repeat' split) <;> rfl

theorem sue_erase (now now' : Nat) (sf : SrcFile) (path : String) :
    (SecurityDetector.detectUnsafeEval now sf path).map erase
      = (SecurityDetector.detectUnsafeEval now' sf path).map erase := by
  unfold SecurityDetector.detectUnsafeEval
  simp only [List.map_append]
  congr 1
  · apply map_erase_flatMap
    intro a
    dsimp only
    (repeat' split) <;> rfl
  · apply map_erase_filterMap
    intro a
    dsimp only
    (repeat' split) <;> rfl

theorem sir_erase (now now' : Nat) (sf : SrcFile) (path : String) :
    (SecurityDetector.detectInsecureRandom now sf path).map erase
      = (SecurityDetector.detectInsecureRandom now' sf path).map erase := by
  unfold SecurityDetector.detectInsecureRandom
  apply map_erase_filterMap
  intro a
  dsimp only
  (repeat' split) <;> rfl

theorem security_analyze_erase (now now' : Nat) (sf : SrcFile)
    (path : String) :
    (SecurityDetector.analyze now sf path).map erase
      = (SecurityDetector.analyze now' sf path).map erase := by
  unfold SecurityDetector.analyze
  split
  · rfl
  · simp only [List.map_append]
    rw [shs_erase now now', ssql_erase now now', sue_erase now now',
      sir_erase now now']

theorem cqmn_erase (now now' : Nat) (sf : SrcFile) (path : String) :
    (CodeQualityDetector.detectMagicNumbers now sf path).map erase
      = (CodeQualityDetector.detectMagicNumbers now' sf path).map erase := by
  unfold CodeQualityDetector.detectMagicNumbers
  apply map_erase_filterMap
  intro a
  dsimp only
  (repeat' split) <;> rfl

theorem cqtodo_line_erase (now now' : Nat) (path : String) (idx : Nat)
    (line : String) :
    (CodeQualityDetector.todoLineFinding now path idx line).map erase
      = (CodeQualityDetector.todoLineFinding now' path idx line).map erase := by
  unfold CodeQualityDetector.todoLineFinding
  dsimp only
  (repeat' split) <;> rfl

theorem cqtodo_scan_erase (now now' : Nat) (path : String) :
    ∀ (ls : List String) (idx : Nat),
    (CodeQualityDetector.todoScanLines now path idx ls).map erase
      = (CodeQualityDetector.todoScanLines now' path idx ls).map erase := by
  intro ls
  induction ls with
  | nil => intro idx; rfl
  | cons line rest ih =>
    intro idx
    unfold CodeQualityDetector.todoScanLines
    simp only [List.map_append, ih (idx + 1)]
    congr 1
    cases h : CodeQualityDetector.todoLineFinding now path idx line with
    | none =>
      cases h' : CodeQualityDetector.todoLineFinding now' path idx line with
      | none => rfl
      | some w =>
        have := cqtodo_line_erase now now' path idx line
        rw [h, h'] at this
        exact absurd this (by simp)
    | some v =>
      cases h' : CodeQualityDetector.todoLineFinding now' path idx line with
      | none =>
        have := cqtodo_line_erase now now' path idx line
        rw [h, h'] at this
        exact absurd this (by simp)
      | some w =>
        have := cqtodo_line_erase now now' path idx line
        rw [h, h'] at this
        simp only [Option.map_some'] at this
        simp [Option.toList, Option.some.inj this]

theorem cqtodo_erase (now now' : Nat) (sf : SrcFile) (path : String) :
    (CodeQualityDetector.detectTodoWithoutContext now sf path).map erase
      = (CodeQualityDetector.detectTodoWithoutContext now' sf path).map
          erase := by
  unfold CodeQualityDetector.detectTodoWithoutContext
  exact cqtodo_scan_erase now now' path sf.lines 0

theorem cqflush_erase (now now' : Nat) (path : String)
    (consecutive startL : Nat) (commented : List String) (endLine : Nat) :
    (CodeQualityDetector.flushCommented now path consecutive startL commented
        endLine).map erase
      = (CodeQualityDetector.flushCommented now' path consecutive startL
          commented endLine).map erase := by
  unfold CodeQualityDetector.flushCommented
  split <;> rfl

theorem cqcc_scan_erase (now now' : Nat) (path : String) :
    ∀ (ls : List String) (idx consecutive startL : Nat)
      (commented : List String),
    (CodeQualityDetector.ccScan now path idx consecutive startL commented
        ls).map erase
      = (CodeQualityDetector.ccScan now' path idx consecutive startL commented
          ls).map erase := by
  intro ls
  induction ls with
  | nil =>
    intro idx consecutive startL commented
    exact cqflush_erase now now' path consecutive startL commented idx
  | cons line rest ih =>
    intro idx consecutive startL commented
    unfold CodeQualityDetector.ccScan
    split
    · exact ih (idx + 1) (consecutive + 1) _ _
    · simp only [List.map_append]
      rw [cqflush_erase now now' path consecutive startL commented idx,
        ih (idx + 1) 0 0 []]

theorem cqcc_erase (now now' : Nat) (sf : SrcFile) (path : String) :
    (CodeQualityDetector.detectCommentedOutCode now sf path).map erase
      = (CodeQualityDetector.detectCommentedOutCode now' sf path).map
          erase := by
  unfold CodeQualityDetector.detectCommentedOutCode
  exact cqcc_scan_erase now now' path sf.lines 0 0 0 []

theorem cqcf_node_erase (now now' : Nat) (path : String)
    (node : Ts × List Ts) :
    (CodeQualityDetector.complexFinding now path node).map erase
      = (CodeQualityDetector.complexFinding now' path node).map erase := by
  unfold CodeQualityDetector.complexFinding
  dsimp only
  (repeat' split) <;> rfl

theorem cqcf_erase (now now' : Nat) (sf : SrcFile) (path : String) :
    (CodeQualityDetector.detectComplexFunctions now sf path).map erase
      = (CodeQualityDetector.detectComplexFunctions now' sf path).map
          erase := by
  unfold CodeQualityDetector.detectComplexFunctions
  apply map_erase_filterMap
  intro a
  exact cqcf_node_erase now now' path a

theorem cqpl_node_erase (now now' : Nat) (path : String)
    (node : Ts × List Ts) :
    (CodeQualityDetector.placeholderFindings now path node).map erase
      = (CodeQualityDetector.placeholderFindings now' path node).map
          erase := by
  unfold CodeQualityDetector.placeholderFindings
  dsimp only
  (repeat' split) <;> rfl

theorem cqpl_erase (now now' : Nat) (sf : SrcFile) (path : String) :
    (CodeQualityDetector.detectPlaceholderImplementations now sf path).map
        erase
      = (CodeQualityDetector.detectPlaceholderImplementations now' sf
          path).map erase := by
  unfold CodeQualityDetector.detectPlaceholderImplementations
  apply map_erase_flatMap
  intro a
  exact cqpl_node_erase now now' path a

theorem codeQuality_analyze_erase (now now' : Nat) (sf : SrcFile)
    (path : String) :
    (CodeQualityDetector.analyze now sf path).map erase
      = (CodeQualityDetector.analyze now' sf path).map erase := by
  unfold CodeQualityDetector.analyze
  simp only [List.map_append]
  rw [cqmn_erase now now', cqtodo_erase now now', cqcc_erase now now',
    cqcf_erase now now', cqpl_erase now now']

theorem runDetector_default_erase (d : Detector) (hd : d ∈ defaultDetectors)
    (now now' : Nat) (sf : SrcFile) (path : String)
    (s : Option DetectorSettings) :
    (Analyzer.runDetector d now sf path s).map erase
      = (Analyzer.runDetector d now' sf path s).map erase := by
  simp only [defaultDetectors, List.mem_cons, List.not_mem_nil, or_false]
    at hd
  rcases hd with h | h | h | h <;> subst h <;>
    unfold Analyzer.runDetector
  · exact naming_analyze_erase now now' sf path s
  · exact errorHandling_analyze_erase now now' sf path
  · exact security_analyze_erase now now' sf path
  · exact codeQuality_analyze_erase now now' sf path

theorem map_erase_flatten (L : List (List DetectedPattern)) :
    L.flatten.map erase = (L.map (List.map erase)).flatten := by
  induction L <;> simp_all

theorem raw_erase (config : ExtensionConfig) (options : AnalyzerOptions)
    (sf : SrcFile) (path : String) (now now' : Nat) :
    (Analyzer.rawDetectorPatterns defaultDetectors config now sf path
        options).map erase
      = (Analyzer.rawDetectorPatterns defaultDetectors config now' sf path
          options).map erase := by
  unfold Analyzer.rawDetectorPatterns
  dsimp only
  rw [map_erase_flatten, map_erase_flatten]
  congr 1
  rw [List.map_map, List.map_map]
  apply List.map_congr_left
  intro d hd
  have hdm : d ∈ defaultDetectors := by
    unfold Analyzer.getApplicableDetectors at hd
    exact (List.mem_filter.mp hd).1
  exact runDetector_default_erase d hdm now now' sf path _

theorem erase_applyOverride (ov : PatternType → Option Severity)
    (p : DetectedPattern) :
    erase (Analyzer.applyOverride ov p) = coreOverride ov (erase p) := by
  unfold Analyzer.applyOverride coreOverride
  cases h : ov p.type <;> simp only [erase, h]

theorem map_erase_mapOverride (ov : PatternType → Option Severity)
    (l : List DetectedPattern) :
    (l.map (Analyzer.applyOverride ov)).map erase
      = (l.map erase).map (coreOverride ov) := by
  rw [List.map_map, List.map_map]
  apply List.map_congr_left
  intro a _
  exact erase_applyOverride ov a

theorem map_erase_filter_meets (minSev : Severity) :
    ∀ l₁ l₂ : List DetectedPattern, l₁.map erase = l₂.map erase →
    (l₁.filter (fun p => meetsSeverityThreshold p.severity minSev)).map erase
      = (l₂.filter (fun p => meetsSeverityThreshold p.severity minSev)).map
          erase := by
  intro l₁
  induction l₁ with
  | nil =>
    intro l₂ h
    cases l₂ with
    | nil => rfl
    | cons b l₂ => simp at h
  | cons a l ih =>
    intro l₂ h
    cases l₂ with
    | nil => simp at h
    | cons b l₂ =>
      simp only [List.map_cons, List.cons.injEq] at h
      obtain ⟨hab, ht⟩ := h
      have hsev : a.severity = b.severity := congrArg PatternCore.severity hab
      simp only [List.filter_cons, hsev]
      by_cases hc : meetsSeverityThreshold b.severity minSev = true
      · simp only [hc, if_true, List.map_cons, hab, ih l₂ ht]
      · simp only [Bool.not_eq_true] at hc
        simp only [hc, Bool.false_eq_true, if_false, ih l₂ ht]

theorem map_erase_insertPat (p : DetectedPattern) (l : List DetectedPattern) :
    (Analyzer.insertPat p l).map erase = coreInsert (erase p) (l.map erase) := by
  induction l with
  | nil => rfl
  | cons q qs ih =>
    have hb : Analyzer.patBefore q p = coreBefore (erase q) (erase p) := rfl
    by_cases h : Analyzer.patBefore q p = true
    · have h' : coreBefore (erase q) (erase p) = true := hb ▸ h
      simp [Analyzer.insertPat, coreInsert, h, h', ih]
    · simp only [Bool.not_eq_true] at h
      have h' : coreBefore (erase q) (erase p) = false := hb ▸ h
      simp [Analyzer.insertPat, coreInsert, h, h']

theorem map_erase_sortPatterns (l : List DetectedPattern) :
    (Analyzer.sortPatterns l).map erase = coreSort (l.map erase) := by
  induction l with
  | nil => rfl
  | cons p ps ih =>
    simp only [Analyzer.sortPatterns, coreSort, List.map_cons,
      map_erase_insertPat, ih]

theorem mem_insertPat {q p : DetectedPattern} {l : List DetectedPattern} :
    q ∈ Analyzer.insertPat p l ↔ q = p ∨ q ∈ l := by
  induction l with
  | nil => simp [Analyzer.insertPat]
  | cons r rs ih =>
    unfold Analyzer.insertPat
    by_cases h : Analyzer.patBefore r p = true
    · simp only [h, if_true, List.mem_cons, ih]
      tauto
    · simp only [Bool.not_eq_true] at h
      simp only [h, Bool.false_eq_true, if_false, List.mem_cons]

theorem mem_sortPatterns {p : DetectedPattern} {l : List DetectedPattern} :
    p ∈ Analyzer.sortPatterns l ↔ p ∈ l := by
  induction l with
  | nil => simp [Analyzer.sortPatterns]
  | cons q qs ih =>
    simp [Analyzer.sortPatterns, mem_insertPat, ih]

theorem length_insertPat (p : DetectedPattern) (l : List DetectedPattern) :
    (Analyzer.insertPat p l).length = l.length + 1 := by
  induction l with
  | nil => rfl
  | cons q qs ih =>
    unfold Analyzer.insertPat
    split <;> simp [ih]

theorem length_sortPatterns (l : List DetectedPattern) :
    (Analyzer.sortPatterns l).length = l.length := by
  induction l with
  | nil => rfl
  | cons p ps ih => simp [Analyzer.sortPatterns, length_insertPat, ih]

/-- `analyzeFile` on a non-excluded path: the output is the raw detector
patterns filtered by the severity threshold, then severity-overridden, then
sorted — in that order. -/
theorem analyzeFile_patterns_def (detectors : List Detector)
    (config : ExtensionConfig) (now : Nat) (sf : SrcFile) (path : String)
    (options : AnalyzerOptions)
    (h : Analyzer.shouldExcludeFile path (mergeConfig config options.config)
      = false) :
    (Analyzer.analyzeFile detectors config now sf path options).patterns
      = Analyzer.sortPatterns
          (((Analyzer.rawDetectorPatterns detectors config now sf path
              options).filter
            (fun p => meetsSeverityThreshold p.severity
              (options.minSeverity.getD
                ((mergeConfig config options.config).minSeverityForCheckpoint)))).map
            (Analyzer.applyOverride
              (mergeConfig config options.config).severityOverrides)) := by
  unfold Analyzer.analyzeFile
  simp [h]

/-! ## Claim theorems -/

/-- C9: analyzing `const data = foo();` with the NamingPatternDetector
yields exactly one `generic_variable_name` finding at `warning` severity,
while `for (let i = 0; i < n; i++) \x7b\x7d` yields no
`generic_variable_name` finding at all (in particular none for `i` or
`n`). -/
theorem c9_generic_name_examples :
    (NamingPatternDetector.analyze 0 sampleGenericVar "test.ts" none).length
        = 1
    ∧ (NamingPatternDetector.analyze 0 sampleGenericVar "test.ts"
        none).countP
        (fun p => p.type == .generic_variable_name
          && p.severity == .warning) = 1
    ∧ (NamingPatternDetector.analyze 0 sampleForLoop "test.ts" none).countP
        (fun p => p.type == .generic_variable_name) = 0 := by
  refine ⟨by rfl, by rfl, by rfl⟩

/-- C2 counterexample: the claim says matching files skip only secret
detection while the other checks still run.  In the code, `analyze` returns
before any check: the same `eval(userInput)` content yields an
`unsafe_eval` finding on `app.ts` but no finding of any type on
`app.test.ts`. -/
theorem c2_counterexample :
    SecurityDetector.shouldSkipFile "app.test.ts" = true
    ∧ (SecurityDetector.analyze 0 sampleEvalFile "app.ts").countP
        (fun p => p.type == .unsafe_eval) = 1
    ∧ SecurityDetector.analyze 0 sampleEvalFile "app.test.ts" = [] := by
  refine ⟨rfl, by decide, by decide⟩

/-- C2 amended: for every file whose path matches one of the
test/config/example naming conventions, `SecurityDetector.analyze` skips
the entire file — all four checks, not just secret detection — and returns
no findings. -/
theorem c2_amended_skip_all (now : Nat) (sf : SrcFile) (path : String)
    (h : SecurityDetector.shouldSkipFile path = true) :
    SecurityDetector.analyze now sf path = [] := by
  unfold SecurityDetector.analyze
  simp [h]

theorem c2_amended_skip_all_witness :
    SecurityDetector.shouldSkipFile "app.test.ts" = true
    ∧ SecurityDetector.analyze 5 sampleEvalFile "app.test.ts" = [] :=
  ⟨rfl, c2_amended_skip_all 5 sampleEvalFile "app.test.ts" rfl⟩

/-- C3: the repository documents all five detector-setting lists as
extending the built-ins, but only the three naming lists take effect.  At
the failing input — settings supplying the generic-error-message phrase
`xyzzy failure` and a file containing `throw new Error('xyzzy failure')` —
no `generic_error_message` finding is produced, while the identical
machinery reports the built-in phrase `something went wrong`; the supplied
naming extension does take effect; `ErrorHandlingDetector` and
`SecurityDetector` ignore the settings argument entirely. -/
theorem c3_settings_ignored_at_failing_input :
    (Analyzer.analyzeFile defaultDetectors settingsConfig 0 xyzzyThrowFile
        "a.ts" { minSeverity := some .info }).patterns.countP
        (fun p => p.type == .generic_error_message) = 0
    ∧ (Analyzer.analyzeFile defaultDetectors settingsConfig 0
        wentWrongThrowFile "a.ts" { minSeverity := some .info
          }).patterns.countP
        (fun p => p.type == .generic_error_message) = 1
    ∧ NamingPatternDetector.isGenericName
        (NamingPatternDetector.initializeSets (some extendedSettings))
        "frobnicate" = true
    ∧ errorHandlingDetector.analyze 0 xyzzyThrowFile "a.ts"
        (some extendedSettings)
      = errorHandlingDetector.analyze 0 xyzzyThrowFile "a.ts" none
    ∧ securityDetector.analyze 0 xyzzyThrowFile "a.ts"
        (some extendedSettings)
      = securityDetector.analyze 0 xyzzyThrowFile "a.ts" none := by
  refine ⟨by decide, by decide, by decide, rfl, rfl⟩

/-- C1 counterexample: the claim says that when `detectLanguage` resolves no
language, no detector runs and the result has zero patterns regardless of
content.  In the code a `null` language skips the language filter, so for
`file.xyz` (no extension mapping) containing `const data = foo();` all four
detectors apply and the analysis returns one finding. -/
theorem c1_counterexample :
    detectLanguage "file.xyz" = none
    ∧ (Analyzer.getApplicableDetectors defaultDetectors none none
        DEFAULT_CONFIG).length = 4
    ∧ (Analyzer.analyzeFile defaultDetectors DEFAULT_CONFIG 0
        sampleGenericVar "file.xyz" {}).patterns.length = 1 := by
  refine ⟨rfl, rfl, by decide⟩

/-- C1 amended: when the extension has no language mapping, the language
check is skipped (a null language excludes no detector): a detector is
applicable iff one of its pattern types passes the pattern filters, and the
analysis still runs and can produce findings (`file.xyz` containing
`const data = foo();` yields one pattern). -/
theorem c1_amended_null_language_skips_filter (detectors : List Detector)
    (pt : Option (List PatternType)) (config : ExtensionConfig)
    (d : Detector) (hd : d ∈ detectors) :
    (d ∈ Analyzer.getApplicableDetectors detectors none pt config
      ↔ d.patterns.any (fun p =>
          !(match pt with
            | some ts => !ts.contains p
            | none => false)
          && config.enabledPatterns.contains p) = true)
    ∧ (Analyzer.analyzeFile defaultDetectors DEFAULT_CONFIG 3
        sampleGenericVar "file.xyz" {}).patterns.length = 1 := by
  constructor
  · unfold Analyzer.getApplicableDetectors Analyzer.detectorApplicable
    rw [List.mem_filter]
    simp [hd]
  · decide

theorem c1_amended_null_language_skips_filter_witness :
    securityDetector ∈ defaultDetectors
    ∧ securityDetector ∈ Analyzer.getApplicableDetectors defaultDetectors
        none none DEFAULT_CONFIG := by
  refine ⟨by simp [defaultDetectors], ?_⟩
  exact (c1_amended_null_language_skips_filter defaultDetectors none
    DEFAULT_CONFIG securityDetector (by simp [defaultDetectors])).1.mpr
    (by decide)

/-- `applyOverride` never changes a pattern's type. -/
theorem applyOverride_type (ov : PatternType → Option Severity)
    (p : DetectedPattern) :
    (Analyzer.applyOverride ov p).type = p.type := by
  unfold Analyzer.applyOverride
  cases ov p.type <;> rfl

/-- C5: in `analyzeFile`, the severity-threshold filter (with the explicit
call option taking precedence over the config default) runs before
severity overrides: (i) the number of output findings equals the number of
raw findings whose pre-override severity meets the threshold — so an
upward override cannot rescue a dropped finding and a downward override
cannot remove a passing one; (ii) every output finding whose type has an
override carries exactly the override severity; (iii) findings of
non-overridden types are raw findings, severity untouched, that passed the
threshold. -/
theorem c5_filter_before_overrides (detectors : List Detector)
    (config : ExtensionConfig) (now : Nat) (sf : SrcFile) (path : String)
    (options : AnalyzerOptions)
    (hex : Analyzer.shouldExcludeFile path (mergeConfig config options.config)
      = false) :
    ((Analyzer.analyzeFile detectors config now sf path
        options).patterns.length
      = ((Analyzer.rawDetectorPatterns detectors config now sf path
          options).filter
          (fun p => meetsSeverityThreshold p.severity
            (options.minSeverity.getD
              ((mergeConfig config
                options.config).minSeverityForCheckpoint)))).length)
    ∧ (∀ p ∈ (Analyzer.analyzeFile detectors config now sf path
          options).patterns,
        ∀ o, (mergeConfig config options.config).severityOverrides p.type
            = some o → p.severity = o)
    ∧ (∀ p ∈ (Analyzer.analyzeFile detectors config now sf path
          options).patterns,
        (mergeConfig config options.config).severityOverrides p.type = none →
          p ∈ Analyzer.rawDetectorPatterns detectors config now sf path
            options
          ∧ meetsSeverityThreshold p.severity
              (options.minSeverity.getD
                ((mergeConfig config
                  options.config).minSeverityForCheckpoint)) = true) := by
  rw [analyzeFile_patterns_def detectors config now sf path options hex]
  refine ⟨?_, ?_, ?_⟩
  · rw [length_sortPatterns, List.length_map]
  · intro p hp o ho
    rw [mem_sortPatterns] at hp
    obtain ⟨q, hq, rfl⟩ := List.mem_map.mp hp
    rw [applyOverride_type] at ho
    unfold Analyzer.applyOverride
    rw [ho]
  · intro p hp ho
    rw [mem_sortPatterns] at hp
    obtain ⟨q, hq, rfl⟩ := List.mem_map.mp hp
    rw [applyOverride_type] at ho
    have hq2 := List.mem_filter.mp hq
    unfold Analyzer.applyOverride
    rw [ho]
    exact ⟨hq2.1, by simpa using hq2.2⟩

theorem c5_filter_before_overrides_witness :
    (Analyzer.shouldExcludeFile "test.ts"
        (mergeConfig DEFAULT_CONFIG ({} : AnalyzerOptions).config) = false)
    ∧ (Analyzer.analyzeFile defaultDetectors DEFAULT_CONFIG 0
        sampleGenericVar "test.ts" {}).patterns.length
      = ((Analyzer.rawDetectorPatterns defaultDetectors DEFAULT_CONFIG 0
          sampleGenericVar "test.ts" {}).filter
          (fun p => meetsSeverityThreshold p.severity
            (({} : AnalyzerOptions).minSeverity.getD
              ((mergeConfig DEFAULT_CONFIG
                ({} : AnalyzerOptions).config).minSeverityForCheckpoint)))).length :=
  ⟨by decide,
   (c5_filter_before_overrides defaultDetectors DEFAULT_CONFIG 0
     sampleGenericVar "test.ts" {} (by decide)).1⟩

/-- C6: analyzing the same parsed source and path twice with identical
configuration yields pattern lists that are equal in length and order and
field-for-field identical after erasing the run-specific `id` and
`detectedAt` fields, whatever the two clock values are. -/
theorem c6_determinism (config : ExtensionConfig) (options : AnalyzerOptions)
    (sf : SrcFile) (path : String) (now1 now2 : Nat) :
    ((Analyzer.analyzeFile defaultDetectors config now1 sf path
        options).patterns).map erase
      = ((Analyzer.analyzeFile defaultDetectors config now2 sf path
          options).patterns).map erase
    ∧ ((Analyzer.analyzeFile defaultDetectors config now1 sf path
        options).patterns).length
      = ((Analyzer.analyzeFile defaultDetectors config now2 sf path
          options).patterns).length := by
  have hmain : ((Analyzer.analyzeFile defaultDetectors config now1 sf path
        options).patterns).map erase
      = ((Analyzer.analyzeFile defaultDetectors config now2 sf path
          options).patterns).map erase := by
    by_cases hex : Analyzer.shouldExcludeFile path
        (mergeConfig config options.config) = true
    · unfold Analyzer.analyzeFile
      simp [hex]
    · rw [Bool.not_eq_true] at hex
      rw [analyzeFile_patterns_def defaultDetectors config now1 sf path
          options hex,
        analyzeFile_patterns_def defaultDetectors config now2 sf path
          options hex]
      rw [map_erase_sortPatterns, map_erase_sortPatterns,
        map_erase_mapOverride, map_erase_mapOverride]
      congr 1
      congr 1
      exact map_erase_filter_meets _ _ _
        (raw_erase config options sf path now1 now2)
  refine ⟨hmain, ?_⟩
  have := congrArg List.length hmain
  simpa using this

/-- C7: a detector whose analyze call fails is caught and contributes
exactly zero patterns; removing it from the detector list yields the very
same `AnalysisResult` — the other detectors are unaffected and the analysis
completes normally. -/
theorem c7_failing_detector_isolated (l1 l2 : List Detector) (d : Detector)
    (config : ExtensionConfig) (now : Nat) (sf : SrcFile) (path : String)
    (options : AnalyzerOptions) (msg : String)
    (hfail : d.analyze now sf path
      (mergeConfig config options.config).detectorSettings = .error msg) :
    Analyzer.analyzeFile (l1 ++ d :: l2) config now sf path options
      = Analyzer.analyzeFile (l1 ++ l2) config now sf path options := by
  have hraw : Analyzer.rawDetectorPatterns (l1 ++ d :: l2) config now sf path
      options
      = Analyzer.rawDetectorPatterns (l1 ++ l2) config now sf path
          options := by
    have hd : Analyzer.runDetector d now sf path
        (mergeConfig config options.config).detectorSettings = [] := by
      unfold Analyzer.runDetector
      rw [hfail]
    unfold Analyzer.rawDetectorPatterns Analyzer.getApplicableDetectors
    dsimp only
    rw [List.filter_append, List.filter_append, List.filter_cons]
    by_cases hP : Analyzer.detectorApplicable (detectLanguage path)
        options.patternTypes (mergeConfig config options.config) d = true
    · simp [hP, hd, List.map_append, List.flatten_append]
    · rw [Bool.not_eq_true] at hP
      simp [hP]
  unfold Analyzer.analyzeFile
  dsimp only
  split
  · rfl
  · rw [hraw]

theorem c7_failing_detector_isolated_witness :
    (failingDetector.analyze 0 sampleGenericVar "test.ts"
        (mergeConfig DEFAULT_CONFIG
          ({} : AnalyzerOptions).config).detectorSettings
      = .error "parse failure")
    ∧ Analyzer.analyzeFile ([namingDetector] ++ failingDetector
          :: [securityDetector]) DEFAULT_CONFIG 0 sampleGenericVar "test.ts"
          {}
      = Analyzer.analyzeFile ([namingDetector] ++ [securityDetector])
          DEFAULT_CONFIG 0 sampleGenericVar "test.ts" {} :=
  ⟨rfl,
   c7_failing_detector_isolated [namingDetector] [securityDetector]
     failingDetector DEFAULT_CONFIG 0 sampleGenericVar "test.ts" {}
     "parse failure" rfl⟩

/-- C8: a `try` with neither catch nor finally yields exactly one finding,
at `critical`, and no further checks run for that statement; a
`try…finally` with no catch yields (only) `try_without_catch` findings at
`info`, and yields one iff the try block contains at least one await
expression, call expression, or throw statement. -/
theorem c8_try_without_catch (now : Nat) (path : String) (pos : Pos)
    (tb fb : Ts) :
    ((ErrorHandlingDetector.tryWithoutCatchFindings now path
        (Ts.tryStmt pos tb none none)).length = 1
      ∧ ∀ p ∈ ErrorHandlingDetector.tryWithoutCatchFindings now path
          (Ts.tryStmt pos tb none none),
          p.severity = .critical ∧ p.type = .empty_catch_block)
    ∧ (∀ p ∈ ErrorHandlingDetector.tryWithoutCatchFindings now path
          (Ts.tryStmt pos tb none (some fb)),
        p.type = .try_without_catch ∧ p.severity = .info)
    ∧ (ErrorHandlingDetector.tryWithoutCatchFindings now path
          (Ts.tryStmt pos tb none (some fb)) ≠ []
        ↔ ((tb.descendantsOfKind .awaitExpr).length > 0
            ∨ (tb.descendantsOfKind .callExpr).length > 0
            ∨ (tb.descendantsOfKind .throwStmt).length > 0)) := by
  refine ⟨⟨rfl, ?_⟩, ?_, ?_⟩
  · intro p hp
    unfold ErrorHandlingDetector.tryWithoutCatchFindings at hp
    simp only [List.mem_singleton] at hp
    subst hp
    exact ⟨rfl, rfl⟩
  · intro p hp
    unfold ErrorHandlingDetector.tryWithoutCatchFindings at hp
    dsimp only at hp
    split at hp
    · simp only [List.mem_singleton] at hp
      subst hp
      exact ⟨rfl, rfl⟩
    · simp at hp
  · unfold ErrorHandlingDetector.tryWithoutCatchFindings
    dsimp only
    constructor
    · intro hne
      split at hne
      case isTrue heq =>
        simp only [Bool.or_eq_true, decide_eq_true_eq] at heq
        tauto
      case isFalse heq => simp at hne
    · intro h
      split
      · simp
      case isFalse heq =>
        exfalso
        apply heq
        simp only [Bool.or_eq_true, decide_eq_true_eq]
        tauto

theorem c8_try_without_catch_witness :
    ((ErrorHandlingDetector.tryWithoutCatchFindings 0 "w.ts"
        (Ts.tryStmt pos11 sampleTryBlock none none)).length = 1)
    ∧ ErrorHandlingDetector.tryWithoutCatchFindings 0 "w.ts"
        (Ts.tryStmt pos11 sampleTryBlock none (some sampleFinallyBlock))
      ≠ [] :=
  ⟨(c8_try_without_catch 0 "w.ts" pos11 sampleTryBlock
      sampleFinallyBlock).1.1,
   (c8_try_without_catch 0 "w.ts" pos11 sampleTryBlock
      sampleFinallyBlock).2.2.mpr (Or.inr (Or.inl (by decide)))⟩

/-- C4 counterexample: the claim's concrete example — four nested if/else
levels plus a for loop containing a switch with 4 cases — has cyclomatic
complexity exactly 10, which satisfies the claim's "≥ 10" but is NOT
reported: `detectComplexFunctions` reports only strictly above the
threshold 10. -/
theorem c4_counterexample :
    CodeQualityDetector.calculateCyclomaticComplexity exampleComplexFun = 10
    ∧ CodeQualityDetector.detectComplexFunctions 0 exampleComplexFile "f.ts"
      = [] := by
  exact ⟨by decide, by decide⟩

/-- C4 amended: cyclomatic complexity is 1 plus the branch count over the
function's full descendant set; a function is reported as
`overly_complex_function` iff its complexity strictly exceeds 10, at
`critical` iff it strictly exceeds 20 and at `warning` otherwise.  The
claim's example (four nested ifs + for + switch with 4 cases) has
complexity exactly 10 and is therefore not reported. -/
theorem c4_complexity_threshold (now : Nat) (path : String)
    (node : Ts × List Ts) (sf : SrcFile) :
    (CodeQualityDetector.detectComplexFunctions now sf path
      = (CodeQualityDetector.functionNodes sf).filterMap
          (CodeQualityDetector.complexFinding now path))
    ∧ (CodeQualityDetector.complexFinding now path node = none
        ↔ CodeQualityDetector.calculateCyclomaticComplexity node.1 ≤ 10)
    ∧ (∀ p, CodeQualityDetector.complexFinding now path node = some p →
        p.type = .overly_complex_function
        ∧ p.severity
          = (if 20 < CodeQualityDetector.calculateCyclomaticComplexity node.1
             then Severity.critical else Severity.warning))
    ∧ (CodeQualityDetector.calculateCyclomaticComplexity exampleComplexFun
        = 10
      ∧ CodeQualityDetector.complexFinding now path (exampleComplexFun, [])
        = none) := by
  refine ⟨rfl, ?_, ?_, by decide, ?_⟩
  · unfold CodeQualityDetector.complexFinding
    dsimp only
    by_cases h : CodeQualityDetector.complexityThreshold
        < CodeQualityDetector.calculateCyclomaticComplexity node.1
    · simp only [h, if_true]
      unfold CodeQualityDetector.complexityThreshold at h
      simp
      omega
    · simp only [h, if_false]
      unfold CodeQualityDetector.complexityThreshold at h
      simp
      omega
  · intro p hp
    unfold CodeQualityDetector.complexFinding at hp
    dsimp only at hp
    split at hp
    · rw [← Option.some.inj hp]
      exact ⟨rfl, rfl⟩
    · exact absurd hp (by simp)
  · unfold CodeQualityDetector.complexFinding
    dsimp only
    rw [show CodeQualityDetector.calculateCyclomaticComplexity
      exampleComplexFun = 10 from by decide]
    rfl

theorem c4_complexity_threshold_witness :
    CodeQualityDetector.complexFinding 0 "f.ts" (exampleComplexFun12, [])
      ≠ none
    ∧ ∀ p, CodeQualityDetector.complexFinding 0 "f.ts"
        (exampleComplexFun12, []) = some p →
        p.type = .overly_complex_function ∧ p.severity = .warning := by
  have h := c4_complexity_threshold 0 "f.ts" (exampleComplexFun12, [])
    exampleComplexFile
  have hc : CodeQualityDetector.calculateCyclomaticComplexity
      exampleComplexFun12 = 12 := by decide
  constructor
  · intro hn
    have h10 := h.2.1.mp hn
    rw [hc] at h10
    omega
  · intro p hp
    have hps := h.2.2.1 p hp
    refine ⟨hps.1, ?_⟩
    rw [hps.2, hc]
    rfl

/-- A line finding carries the scanned line number (1-based) and the
fixed line-scan description. -/
theorem lineSecretFinding_fields (now : Nat) (path : String) (idx : Nat)
    (line : String) (q : DetectedPattern)
    (h : SecurityDetector.lineSecretFinding now path idx line = some q) :
    q.startLine = idx + 1
    ∧ q.description = "Potential hardcoded secret detected" := by
  unfold SecurityDetector.lineSecretFinding at h
  cases hs : SecurityDetector.scanLineForSecret SECRET_PATTERNS line with
  | none => rw [hs] at h; simp at h
  | some m =>
    rw [hs] at h
    simp only [Option.map_some'] at h
    rw [← Option.some.inj h]
    exact ⟨rfl, rfl⟩

/-- Every finding emitted by the line scan starting at index `idx` is on a
line strictly after `idx`. -/
theorem scanLines_startLine_gt (now : Nat) (path : String) :
    ∀ (ls : List String) (idx : Nat) (p : DetectedPattern),
      p ∈ SecurityDetector.scanLines now path idx ls → idx < p.startLine := by
  intro ls
  induction ls with
  | nil => intro idx p hp; simp [SecurityDetector.scanLines] at hp
  | cons line rest ih =>
    intro idx p hp
    unfold SecurityDetector.scanLines at hp
    rw [List.mem_append] at hp
    rcases hp with hp | hp
    · cases hq : SecurityDetector.lineSecretFinding now path idx line with
      | none => rw [hq] at hp; simp [Option.toList] at hp
      | some q =>
        rw [hq] at hp
        simp only [Option.toList, List.mem_singleton] at hp
        subst hp
        rw [(lineSecretFinding_fields now path idx line p hq).1]
        omega
    · have := ih (idx + 1) p hp
      omega

/-- The line scan emits at most one finding per line number. -/
theorem scanLines_filter_count (now : Nat) (path : String) (n : Nat) :
    ∀ (ls : List String) (idx : Nat),
      ((SecurityDetector.scanLines now path idx ls).filter
        (fun p => p.description == "Potential hardcoded secret detected"
          && p.startLine == n)).length ≤ 1 := by
  intro ls
  induction ls with
  | nil => intro idx; simp [SecurityDetector.scanLines]
  | cons line rest ih =>
    intro idx
    unfold SecurityDetector.scanLines
    rw [List.filter_append, List.length_append]
    cases hq : SecurityDetector.lineSecretFinding now path idx line with
    | none =>
      simp only [Option.toList, List.filter_nil, List.length_nil]
      have := ih (idx + 1)
      omega
    | some q =>
      simp only [Option.toList]
      by_cases hsel : (q.description == "Potential hardcoded secret detected"
          && q.startLine == n) = true
      · have hfields := lineSecretFinding_fields now path idx line q hq
        have hsl := ((Bool.and_eq_true _ _).mp hsel).2
        have h1 := eq_of_beq hsl
        have h2 := hfields.1
        have htail : (SecurityDetector.scanLines now path (idx + 1) rest).filter
            (fun p => p.description == "Potential hardcoded secret detected"
              && p.startLine == n) = [] := by
          rw [List.filter_eq_nil_iff]
          intro p hp
          have hgt := scanLines_startLine_gt now path rest (idx + 1) p hp
          simp only [Bool.and_eq_true, beq_iff_eq, not_and]
          intro _ heq
          omega
        rw [htail]
        have hb := List.length_filter_le (fun p =>
          p.description == "Potential hardcoded secret detected"
            && p.startLine == n) [q]
        simp only [List.length_singleton, List.length_nil] at hb ⊢
        omega
      · rw [Bool.not_eq_true] at hsel
        have hfq : List.filter
            (fun p => p.description == "Potential hardcoded secret detected"
              && p.startLine == n) [q] = [] := by
          simp [List.filter, hsel]
        rw [hfq]
        simp only [List.length_nil]
        have := ih (idx + 1)
        omega

/-- AST-level secret findings carry the JWT or AWS description, never the
line-scan description. -/
theorem astsf_desc (now : Nat) (sf : SrcFile) (path : String)
    (p : DetectedPattern)
    (hp : p ∈ SecurityDetector.astSecretFindings now sf path) :
    p.description = "Hardcoded JWT token detected"
    ∨ p.description = "Hardcoded AWS access key detected" := by
  unfold SecurityDetector.astSecretFindings at hp
  rw [List.mem_flatMap] at hp
  obtain ⟨node, hnode, hpm⟩ := hp
  obtain ⟨t, anc⟩ := node
  cases t
  case strLit pos text =>
    rw [List.mem_append] at hpm
    rcases hpm with h | h
    · left
      split at h
      · simp only [List.mem_singleton] at h
        subst h
        rfl
      · simp at h
    · right
      split at h
      · simp only [List.mem_singleton] at h
        subst h
        rfl
      · simp at h
  all_goals simp at hpm

/-- Every string-literal record of `strLitData` comes from an actual
string-literal node of the file. -/
theorem strLitData_mem (sf : SrcFile) (ps : Pos) (txt : String)
    (h : (ps, txt) ∈ strLitData sf) :
    ∃ anc, (Ts.strLit ps txt, anc) ∈ sf.descendantsOfKind .strLit := by
  unfold strLitData at h
  rw [List.mem_filterMap] at h
  obtain ⟨node, hnode, hmtch⟩ := h
  obtain ⟨t, anc⟩ := node
  refine ⟨anc, ?_⟩
  cases t
  case strLit p s =>
    have hpair := Option.some.inj hmtch
    rw [Prod.mk.injEq] at hpair
    obtain ⟨h1, h2⟩ := hpair
    subst h1
    subst h2
    exact hnode
  all_goals simp at hmtch

/-- C10: each source line contributes at most one line-based
hardcoded_secret finding per analysis (scanning of a line stops at the
first matching pattern), and the AST-level JWT-shape and AWS-key-shape
checks report independently of this per-line limit: every string literal
of JWT (resp. AWS-key) shape yields its finding at the literal's line,
regardless of the line scan. -/
theorem c10_per_line_secret_limit (now : Nat) (sf : SrcFile) (path : String) :
    (SecurityDetector.detectHardcodedSecrets now sf path
      = SecurityDetector.scanLines now path 0 sf.lines
        ++ SecurityDetector.astSecretFindings now sf path)
    ∧ (∀ n, ((SecurityDetector.detectHardcodedSecrets now sf path).filter
        (fun p => p.description == "Potential hardcoded secret detected"
          && p.startLine == n)).length ≤ 1)
    ∧ (∀ ps txt, (ps, txt) ∈ strLitData sf →
        SecurityDetector.jwtShape txt = true →
        ∃ p ∈ SecurityDetector.detectHardcodedSecrets now sf path,
          p.description = "Hardcoded JWT token detected"
          ∧ p.startLine = ps.startLine)
    ∧ (∀ ps txt, (ps, txt) ∈ strLitData sf →
        SecurityDetector.awsShape txt = true →
        ∃ p ∈ SecurityDetector.detectHardcodedSecrets now sf path,
          p.description = "Hardcoded AWS access key detected"
          ∧ p.startLine = ps.startLine) := by
  refine ⟨rfl, ?_, ?_, ?_⟩
  · intro n
    unfold SecurityDetector.detectHardcodedSecrets
    rw [List.filter_append, List.length_append]
    have h1 := scanLines_filter_count now path n sf.lines 0
    have h2 : (SecurityDetector.astSecretFindings now sf path).filter
        (fun p => p.description == "Potential hardcoded secret detected"
          && p.startLine == n) = [] := by
      rw [List.filter_eq_nil_iff]
      intro p hp
      simp only [Bool.and_eq_true, beq_iff_eq, not_and]
      intro hdesc _
      rcases astsf_desc now sf path p hp with hd | hd <;>
        rw [hd] at hdesc <;> exact absurd hdesc (by decide)
    rw [h2]
    simpa using h1
  · intro ps txt hmem hjwt
    obtain ⟨anc, hnode⟩ := strLitData_mem sf ps txt hmem
    have hin : createPattern SecurityDetector.id now .hardcoded_secret path
        ps.startLine ps.endLine
        "Hardcoded JWT token detected"
        "JWT tokens should not be hardcoded. They will be exposed in version control."
        ("\"" ++ strTake txt 20 ++ "...[MASKED]\"")
        { severity := some .critical
          suggestion := some "Store tokens securely and retrieve them at runtime"
          confidence := some 95 }
        ∈ SecurityDetector.detectHardcodedSecrets now sf path := by
      unfold SecurityDetector.detectHardcodedSecrets
      rw [List.mem_append]
      right
      unfold SecurityDetector.astSecretFindings
      rw [List.mem_flatMap]
      refine ⟨(Ts.strLit ps txt, anc), hnode, ?_⟩
      dsimp only
      rw [if_pos hjwt]
      exact List.mem_append_left _ (List.mem_singleton_self _)
    exact ⟨_, hin, rfl, rfl⟩
  · intro ps txt hmem haws
    obtain ⟨anc, hnode⟩ := strLitData_mem sf ps txt hmem
    have hin : createPattern SecurityDetector.id now .hardcoded_secret path
        ps.startLine ps.endLine
        "Hardcoded AWS access key detected"
        "AWS credentials should never be in source code."
        ("\"" ++ strTake txt 8 ++ "...[MASKED]\"")
        { severity := some .critical
          suggestion := some "Use AWS SDK credential providers or environment variables"
          confidence := some 98 }
        ∈ SecurityDetector.detectHardcodedSecrets now sf path := by
      unfold SecurityDetector.detectHardcodedSecrets
      rw [List.mem_append]
      right
      unfold SecurityDetector.astSecretFindings
      rw [List.mem_flatMap]
      refine ⟨(Ts.strLit ps txt, anc), hnode, ?_⟩
      dsimp only
      rw [if_pos haws]
      exact List.mem_append_right _ (List.mem_singleton_self _)
    exact ⟨_, hin, rfl, rfl⟩

theorem c10_per_line_secret_limit_witness :
    ((SecurityDetector.detectHardcodedSecrets 0 sampleSecretFile
        "app.ts").filter
      (fun p => p.description == "Potential hardcoded secret detected"
        && p.startLine == 1)).length ≤ 1
    ∧ ∃ p ∈ SecurityDetector.detectHardcodedSecrets 0 sampleSecretFile
        "app.ts",
        p.description = "Hardcoded JWT token detected"
        ∧ p.startLine = (⟨2, 2⟩ : Pos).startLine :=
  ⟨(c10_per_line_secret_limit 0 sampleSecretFile "app.ts").2.1 1,
   (c10_per_line_secret_limit 0 sampleSecretFile "app.ts").2.2.1
     ⟨2, 2⟩ "eyJabc.def.ghi" (by decide) (by decide)⟩

end CodeGateway
